import Mathlib

/-!
# HotSpot collector policies: a shallow embedding

Embedding of `memory/collectorPolicy.hpp`, `memory/barrierSet.hpp`,
`gc_implementation/concurrentMarkSweep/cmsCollectorPolicy.hpp` and
`gc_interface/gcCause.hpp`.

* `size_t` members are natural numbers, pointer members are optional handles.
* A C++ object is the record of its members; derived classes extend the record
  of their base class.
* Virtual member functions are resolved by walking the chain of base classes
  (`PolicyClass.final_overrider`).
* Member functions whose bodies live in `.cpp` files are either taken as
  parameters (the virtual hooks of `initialize_all`) or modelled from the
  specification; the latter say so in their documentation.
* Macros and flags defined outside these files (`INCLUDE_ALL_GCS`, `PrintGCCause`,
  `NewRatio`) are parameters.
* C strings are lists of bytes, read up to the first NUL.
-/

namespace Hotspot

/-! ## Enumerations -/

/-- The enum `BarrierSet::Name` of `barrierSet.hpp`. -/
inductive BarrierSet.Name
  | ModRef
  | CardTableModRef
  | CardTableExtension
  | G1SATBCT
  | G1SATBCTLogging
  | Other
  | Uninit
  deriving DecidableEq, Repr

/-- The policy classes declared in `collectorPolicy.hpp` and `cmsCollectorPolicy.hpp`. -/
inductive PolicyClass
  | CollectorPolicy
  | GenCollectorPolicy
  | TwoGenerationCollectorPolicy
  | MarkSweepPolicy
  | ConcurrentMarkSweepPolicy
  | ASConcurrentMarkSweepPolicy
  deriving DecidableEq, Repr

/-- The direct base class named in each class head (`class D : public B`). -/
def PolicyClass.base : PolicyClass → Option PolicyClass
  | .CollectorPolicy => none
  | .GenCollectorPolicy => some .CollectorPolicy
  | .TwoGenerationCollectorPolicy => some .GenCollectorPolicy
  | .MarkSweepPolicy => some .TwoGenerationCollectorPolicy
  | .ConcurrentMarkSweepPolicy => some .TwoGenerationCollectorPolicy
  | .ASConcurrentMarkSweepPolicy => some .ConcurrentMarkSweepPolicy

/-- The class followed by its bases, most derived first; the fuel bounds the depth. -/
def PolicyClass.lineageFrom : Nat → PolicyClass → List PolicyClass
  | 0, _ => []
  | n + 1, c =>
    c :: (match c.base with
      | none => []
      | some b => PolicyClass.lineageFrom n b)

/-- The class followed by all of its bases (six classes exist, so six steps suffice). -/
def PolicyClass.lineage (c : PolicyClass) : List PolicyClass :=
  PolicyClass.lineageFrom 6 c

/-- Virtual lookup: the body of the nearest class in the lineage that defines the
member; `none` when the member is pure virtual or absent along the whole lineage. -/
def PolicyClass.final_overrider {α : Type} (defined : PolicyClass → Option α)
    (c : PolicyClass) : Option α :=
  c.lineage.findSome? defined

/-- Data members of `class CollectorPolicy`. -/
structure CollectorPolicy where
  _gc_policy_counters : Option Nat
  _initial_heap_byte_size : Nat
  _max_heap_byte_size : Nat
  _min_heap_byte_size : Nat
  _space_alignment : Nat
  _heap_alignment : Nat
  _max_heap_size_cmdline : Bool
  _size_policy : Option Nat
  _should_clear_all_soft_refs : Bool
  _all_soft_refs_clear : Bool
  deriving DecidableEq, Repr

/-- Data members of `class GenCollectorPolicy : public CollectorPolicy`. -/
structure GenCollectorPolicy extends CollectorPolicy where
  _min_gen0_size : Nat
  _initial_gen0_size : Nat
  _max_gen0_size : Nat
  _gen_alignment : Nat
  _generations : Option Nat
  deriving DecidableEq, Repr

/-- Data members of `class TwoGenerationCollectorPolicy : public GenCollectorPolicy`. -/
structure TwoGenerationCollectorPolicy extends GenCollectorPolicy where
  _min_gen1_size : Nat
  _initial_gen1_size : Nat
  _max_gen1_size : Nat
  deriving DecidableEq, Repr

/-! ## Call traces -/

/-- The out-of-line member functions whose invocations are recorded. -/
inductive Hook
  | initialize_alignments
  | initialize_flags
  | initialize_size_info
  | initialize_generations
  | cleared_all_soft_refs
  deriving DecidableEq, Repr

/-- A trace event: control enters a hook, or the hook returns to its caller. -/
inductive Event
  | call (h : Hook)
  | ret (h : Hook)
  deriving DecidableEq, Repr

/-- An execution: the object state together with the events recorded so far. -/
structure Run (σ : Type) where
  state : σ
  trace : List Event

/-- One call statement `h();`: enter the hook, run its body on the object, return. -/
def invoke {σ : Type} (h : Hook) (body : σ → σ) (r : Run σ) : Run σ :=
  { state := body r.state, trace := r.trace ++ [Event.call h, Event.ret h] }

/-- The virtual hooks of the initialization sequence as seen from one object: the
final overriders of the object's dynamic class.  Their bodies are defined in
`.cpp` files, so they are arbitrary state transformers here. -/
structure VTable (σ : Type) where
  initialize_alignments : σ → σ
  initialize_flags : σ → σ
  initialize_size_info : σ → σ
  initialize_generations : σ → σ

/-! ## `initialize_all` -/

/-- The body of `CollectorPolicy::initialize_all()` (collectorPolicy.hpp:111-118). -/
def CollectorPolicy.initialize_all {σ : Type} (vt : VTable σ) (r : Run σ) : Run σ :=
  let r1 := invoke Hook.initialize_alignments vt.initialize_alignments r
  let r2 := invoke Hook.initialize_flags vt.initialize_flags r1
  invoke Hook.initialize_size_info vt.initialize_size_info r2

/-- The body of `GenCollectorPolicy::initialize_all()` (collectorPolicy.hpp:302-306). -/
def GenCollectorPolicy.initialize_all {σ : Type} (vt : VTable σ) (r : Run σ) : Run σ :=
  let r1 := CollectorPolicy.initialize_all vt r
  invoke Hook.initialize_generations vt.initialize_generations r1

/-- Which classes define `initialize_all` in their class body. -/
def PolicyClass.defines_initialize_all {σ : Type} :
    PolicyClass → Option (VTable σ → Run σ → Run σ)
  | .CollectorPolicy => some CollectorPolicy.initialize_all
  | .GenCollectorPolicy => some GenCollectorPolicy.initialize_all
  | _ => none

/-- The virtual call `p->initialize_all()` on an object of dynamic class `c`. -/
def PolicyClass.initialize_all {σ : Type} (c : PolicyClass) (vt : VTable σ) (r : Run σ) :
    Option (Run σ) :=
  (PolicyClass.final_overrider PolicyClass.defines_initialize_all c).map (fun f => f vt r)

/-! ## Fixed answers of `TwoGenerationCollectorPolicy` -/

/-- Which classes define `number_of_generations` (pure virtual in
`GenCollectorPolicy`, `return 2` in `TwoGenerationCollectorPolicy`). -/
def PolicyClass.defines_number_of_generations :
    PolicyClass → Option (Hotspot.TwoGenerationCollectorPolicy → Int)
  | .TwoGenerationCollectorPolicy => some (fun _ => 2)
  | _ => none

/-- The virtual call `p->number_of_generations()` on an object of dynamic class `c`. -/
def PolicyClass.number_of_generations (c : PolicyClass) (p : Hotspot.TwoGenerationCollectorPolicy) :
    Option Int :=
  (PolicyClass.final_overrider PolicyClass.defines_number_of_generations c).map (fun f => f p)

/-- Which classes define `barrier_set_name` (pure virtual in `CollectorPolicy`,
`return BarrierSet::CardTableModRef` in `TwoGenerationCollectorPolicy`). -/
def PolicyClass.defines_barrier_set_name :
    PolicyClass → Option (Hotspot.TwoGenerationCollectorPolicy → BarrierSet.Name)
  | .TwoGenerationCollectorPolicy => some (fun _ => BarrierSet.Name.CardTableModRef)
  | _ => none

/-- The virtual call `p->barrier_set_name()` on an object of dynamic class `c`. -/
def PolicyClass.barrier_set_name (c : PolicyClass) (p : Hotspot.TwoGenerationCollectorPolicy) :
    Option BarrierSet.Name :=
  (PolicyClass.final_overrider PolicyClass.defines_barrier_set_name c).map (fun f => f p)

/-- The classes derived from (or equal to) `TwoGenerationCollectorPolicy`. -/
def PolicyClass.derives_two_generation (c : PolicyClass) : Bool :=
  decide (PolicyClass.TwoGenerationCollectorPolicy ∈ c.lineage)

/-! ## Soft-reference clearing protocol -/

/-- The inline accessor `should_clear_all_soft_refs()` (collectorPolicy.hpp:140). -/
def CollectorPolicy.should_clear_all_soft_refs (p : CollectorPolicy) : Bool :=
  p._should_clear_all_soft_refs

/-- The inline setter `set_should_clear_all_soft_refs(v)` (collectorPolicy.hpp:141). -/
def CollectorPolicy.set_should_clear_all_soft_refs (p : CollectorPolicy) (v : Bool) :
    CollectorPolicy :=
  { p with _should_clear_all_soft_refs := v }

/-- The inline accessor `all_soft_refs_clear()` (collectorPolicy.hpp:145). -/
def CollectorPolicy.all_soft_refs_clear (p : CollectorPolicy) : Bool :=
  p._all_soft_refs_clear

/-- The inline setter `set_all_soft_refs_clear(v)` (collectorPolicy.hpp:146). -/
def CollectorPolicy.set_all_soft_refs_clear (p : CollectorPolicy) (v : Bool) :
    CollectorPolicy :=
  { p with _all_soft_refs_clear := v }

/-- Modelled from the spec: the body of `CollectorPolicy::use_should_clear_all_soft_refs`
is not in the header, which only declares it with the comment "Returns the current
value of _should_clear_all_soft_refs.  _should_clear_all_soft_refs is set to false as
a side effect."  The spec (section 4.2) says it reads and resets the flag, returning
the prior value.  The result pairs the returned value with the object afterwards. -/
def CollectorPolicy.use_should_clear_all_soft_refs (p : CollectorPolicy) (_v : Bool) :
    Bool × CollectorPolicy :=
  let result := p.should_clear_all_soft_refs
  (result, p.set_should_clear_all_soft_refs false)

/-- Data members of `class ClearedAllSoftRefs`.  The member `_collector_policy`
points at the policy object, which is the state of the surrounding execution. -/
structure ClearedAllSoftRefs where
  _clear_all_soft_refs : Bool
  deriving DecidableEq, Repr

/-- The destructor `~ClearedAllSoftRefs()` (collectorPolicy.hpp:232-236).  The body of
`CollectorPolicy::cleared_all_soft_refs` is defined in a `.cpp` file and is taken as
the parameter `cleared_all_soft_refs`. -/
def ClearedAllSoftRefs.destructor {σ : Type} (cleared_all_soft_refs : σ → σ)
    (self : ClearedAllSoftRefs) (r : Run σ) : Run σ :=
  if self._clear_all_soft_refs then
    invoke Hook.cleared_all_soft_refs cleared_all_soft_refs r
  else
    r

/-- A block `{ ClearedAllSoftRefs casr(clear_all_soft_refs, policy); body }`.  The
body runs to whichever exit it takes (its result of type `β` records the exit path
and the value carried out), then the destructor of the stack object runs. -/
def ClearedAllSoftRefs.scope {σ β : Type} (cleared_all_soft_refs : σ → σ)
    (clear_all_soft_refs : Bool) (body : Run σ → β × Run σ) (r : Run σ) : β × Run σ :=
  let casr : ClearedAllSoftRefs := { _clear_all_soft_refs := clear_all_soft_refs }
  let out := body r
  (out.1, casr.destructor cleared_all_soft_refs out.2)

/-! ## Size arithmetic -/

/-- Modelled from the spec: "rounded down to the nearest alignment multiple".  The
rounding helpers used by the sizing code are defined outside these files. -/
def align_size_down (size alignment : Nat) : Nat :=
  size / alignment * alignment

/-- Modelled from the spec: "rounds to alignment", upwards: the least multiple of the
alignment that is not below the size. -/
def align_size_up (size alignment : Nat) : Nat :=
  align_size_down (size + alignment - 1) alignment

/-- Modelled from the spec: the body of `GenCollectorPolicy::scale_by_NewRatio_aligned`
is not in the header, which declares it with the comment "result = base_size /
(NewRatio + 1) and align by min_alignment()".  The spec (sections 4.3 and 8) says the
quotient is rounded down to a multiple of the generation alignment.  The global flag
`NewRatio` is an argument. -/
def GenCollectorPolicy.scale_by_NewRatio_aligned (p : GenCollectorPolicy) (NewRatio : Nat)
    (base_size : Nat) : Nat :=
  align_size_down (base_size / (NewRatio + 1)) p._gen_alignment

/-- The `[min, max]` bound of generation 0. -/
def TwoGenerationCollectorPolicy.gen0_within_bounds (p : TwoGenerationCollectorPolicy)
    (gen0_size : Nat) : Prop :=
  p._min_gen0_size ≤ gen0_size ∧ gen0_size ≤ p._max_gen0_size

/-- The `[min, max]` bound of generation 1. -/
def TwoGenerationCollectorPolicy.gen1_within_bounds (p : TwoGenerationCollectorPolicy)
    (gen1_size : Nat) : Prop :=
  p._min_gen1_size ≤ gen1_size ∧ gen1_size ≤ p._max_gen1_size

/-- A feasible pair of generation sizes for a heap size: the pair sums to the heap
size, each size is within its own bound and a multiple of the generation alignment. -/
def TwoGenerationCollectorPolicy.feasible (p : TwoGenerationCollectorPolicy)
    (heap_size gen0_size gen1_size : Nat) : Prop :=
  gen0_size + gen1_size = heap_size ∧
    p.gen0_within_bounds gen0_size ∧ p.gen1_within_bounds gen1_size ∧
    gen0_size % p._gen_alignment = 0 ∧ gen1_size % p._gen_alignment = 0

instance (p : TwoGenerationCollectorPolicy) (heap_size gen0_size gen1_size : Nat) :
    Decidable (p.feasible heap_size gen0_size gen1_size) :=
  inferInstanceAs (Decidable (gen0_size + gen1_size = heap_size ∧
    (p._min_gen0_size ≤ gen0_size ∧ gen0_size ≤ p._max_gen0_size) ∧
    (p._min_gen1_size ≤ gen1_size ∧ gen1_size ≤ p._max_gen1_size) ∧
    gen0_size % p._gen_alignment = 0 ∧ gen1_size % p._gen_alignment = 0))

/-- The distance of a size from its configured size. -/
def size_distance (size configured : Nat) : Nat :=
  (size - configured) + (configured - size)

/-- What `adjust_gen0_sizes` leaves behind: its boolean result and the two sizes its
pointer arguments refer to after the call. -/
structure AdjustedSizes where
  result : Bool
  gen0_size : Nat
  gen1_size : Nat
  deriving DecidableEq, Repr

/-- The generation-0 size that `adjust_gen0_sizes` proposes: the size it would like
(the rest of the heap when generation 0 is the one further from its configured size,
else the size passed in), rounded down to the alignment and clamped once into the
aligned window that the bounds of both generations leave for generation 0. -/
def TwoGenerationCollectorPolicy.rebalanced_gen0 (p : TwoGenerationCollectorPolicy)
    (gen0_size gen1_size heap_size : Nat) : Nat :=
  let lower :=
    align_size_up (max p._min_gen0_size (heap_size - p._max_gen1_size)) p._gen_alignment
  let upper :=
    align_size_down (min p._max_gen0_size (heap_size - p._min_gen1_size)) p._gen_alignment
  let wanted :=
    if size_distance gen1_size p._initial_gen1_size
        < size_distance gen0_size p._initial_gen0_size then
      heap_size - gen1_size
    else
      gen0_size
  max lower (min upper (align_size_down wanted p._gen_alignment))

/-- Modelled from the spec: the body of `TwoGenerationCollectorPolicy::adjust_gen0_sizes`
is not in the header, which declares it with the comment "Returns true if gen0 sizes
were adjusted".  The spec (sections 4.4 and 8) says it rebalances the pair so that it
sums to the heap size, respecting each generation's own min/max and the shared
alignment, preferring to change the generation further from its configured size, in a
bounded number of steps, and reports no adjustment rather than violating a bound.
Here: generation 0 takes the size proposed by `rebalanced_gen0`, generation 1 takes the
rest of the heap, and the pair is committed only when it is feasible. -/
def TwoGenerationCollectorPolicy.adjust_gen0_sizes (p : TwoGenerationCollectorPolicy)
    (gen0_size gen1_size heap_size : Nat) : AdjustedSizes :=
  if gen0_size + gen1_size = heap_size then
    { result := false, gen0_size := gen0_size, gen1_size := gen1_size }
  else
    let new_gen0 := p.rebalanced_gen0 gen0_size gen1_size heap_size
    let new_gen1 := heap_size - new_gen0
    if p.feasible heap_size new_gen0 new_gen1 then
      { result := true, gen0_size := new_gen0, gen1_size := new_gen1 }
    else
      { result := false, gen0_size := gen0_size, gen1_size := gen1_size }

/-! ## Alignments and the heap size configuration -/

/-- Modelled from the spec: the platform values from which a concrete policy
computes its alignments (section 4.5: "space alignment = card size or platform
default"; section 4.1: large-page support may require a coarser generation
alignment, and the heap has its own alignment requirement). -/
structure AlignmentInputs where
  space_alignment : Nat
  large_page_alignment : Option Nat
  heap_alignment_request : Nat
  deriving DecidableEq, Repr

/-- Modelled from the spec: the bodies of `MarkSweepPolicy::initialize_alignments` and
`ConcurrentMarkSweepPolicy::initialize_alignments` are not in the headers, which only
declare them.  The spec (section 4.1) says the function sets the space alignment,
then derives the generation alignment (the space alignment unless large-page support
requires otherwise) and the heap alignment (an integer multiple of the generation
alignment), the divisibility being enforced by construction.  Here a required value
is rounded up to a multiple of the next finer alignment. -/
def TwoGenerationCollectorPolicy.initialize_alignments (cfg : AlignmentInputs)
    (p : TwoGenerationCollectorPolicy) : TwoGenerationCollectorPolicy :=
  let space := cfg.space_alignment
  let gen :=
    match cfg.large_page_alignment with
    | none => space
    | some large_page => align_size_up (max space large_page) space
  let heap := align_size_up (max gen cfg.heap_alignment_request) gen
  { p with _space_alignment := space, _gen_alignment := gen, _heap_alignment := heap }

/-- Which classes declare an overrider of the pure virtual `initialize_alignments`. -/
def PolicyClass.defines_initialize_alignments (cfg : AlignmentInputs) :
    PolicyClass → Option (Hotspot.TwoGenerationCollectorPolicy →
      Hotspot.TwoGenerationCollectorPolicy)
  | .MarkSweepPolicy => some (Hotspot.TwoGenerationCollectorPolicy.initialize_alignments cfg)
  | .ConcurrentMarkSweepPolicy =>
    some (Hotspot.TwoGenerationCollectorPolicy.initialize_alignments cfg)
  | _ => none

/-- The virtual call `p->initialize_alignments()` on an object of dynamic class `c`. -/
def PolicyClass.initialize_alignments (c : PolicyClass) (cfg : AlignmentInputs)
    (p : Hotspot.TwoGenerationCollectorPolicy) : Option Hotspot.TwoGenerationCollectorPolicy :=
  (PolicyClass.final_overrider (PolicyClass.defines_initialize_alignments cfg) c).map
    (fun f => f p)

/-- The divisibility chain `heap_alignment % gen_alignment == 0` and
`gen_alignment % space_alignment == 0`, with the ordering it is said to entail. -/
def TwoGenerationCollectorPolicy.alignments_consistent (p : TwoGenerationCollectorPolicy) :
    Prop :=
  p._heap_alignment % p._gen_alignment = 0 ∧ p._gen_alignment % p._space_alignment = 0 ∧
    p._gen_alignment ≤ p._heap_alignment ∧ p._space_alignment ≤ p._gen_alignment

/-- Modelled from the spec: the heap size configuration consumed by the policy
(section 6: initial, minimum and maximum heap size). -/
structure SizeFlags where
  InitialHeapSize : Nat
  MinHeapSize : Nat
  MaxHeapSize : Nat
  deriving DecidableEq, Repr

/-- Modelled from the spec: the body of `CollectorPolicy::initialize_flags` is not in
the header.  The spec (section 4.2) says it validates and clamps the configured sizes,
rounding them to the alignment, and reports a fatal configuration error (here `none`)
when the constraints cannot be met.  It works on the configuration only. -/
def CollectorPolicy.initialize_flags (p : CollectorPolicy) (f : SizeFlags) : Option SizeFlags :=
  let min_size := align_size_up f.MinHeapSize p._heap_alignment
  let max_size := align_size_up f.MaxHeapSize p._heap_alignment
  let initial_size := align_size_up f.InitialHeapSize p._heap_alignment
  if max_size < min_size then
    none
  else
    some { InitialHeapSize := max min_size (min max_size initial_size),
           MinHeapSize := min_size,
           MaxHeapSize := max_size }

/-- Modelled from the spec: the body of `CollectorPolicy::initialize_size_info` is not
in the header.  The spec (section 4.2) says it derives the initial, minimum and maximum
heap byte sizes from the flags, all aligned to the heap alignment. -/
def CollectorPolicy.initialize_size_info (p : CollectorPolicy) (f : SizeFlags) :
    CollectorPolicy :=
  { p with
    _initial_heap_byte_size := align_size_up f.InitialHeapSize p._heap_alignment,
    _min_heap_byte_size := align_size_up f.MinHeapSize p._heap_alignment,
    _max_heap_byte_size := align_size_up f.MaxHeapSize p._heap_alignment }

/-- Modelled from the spec: the body of `CollectorPolicy::cleared_all_soft_refs` is not
in the header, which declares it with the comment "Called by the GC after Soft Refs
have been cleared to indicate that the request in _should_clear_all_soft_refs has been
fulfilled"; the member `_all_soft_refs_clear` is "set to true whenever a gc clears all
softrefs".  The spec (section 4.2) says the call acknowledges completion in the
`all_soft_refs_clear` bookkeeping. -/
def CollectorPolicy.cleared_all_soft_refs (p : CollectorPolicy) : CollectorPolicy :=
  p.set_all_soft_refs_clear true

/-- Modelled from the spec: the bodies of the `initialize_generations` overriders are
not in the headers.  The spec (sections 4.3 and 4.5) says the function constructs the
generation specifications; on the policy object this fills the member `_generations`
with the handle of the constructed sequence. -/
def TwoGenerationCollectorPolicy.initialize_generations (specs : Nat)
    (p : TwoGenerationCollectorPolicy) : TwoGenerationCollectorPolicy :=
  { p with _generations := some specs }

/-- The configuration together with the policy object it feeds. -/
structure World where
  flags : SizeFlags
  policy : TwoGenerationCollectorPolicy
  deriving DecidableEq, Repr

/-! ## Sizes of the two generations -/

/-- Modelled from the spec: the generation configuration consumed by the policy
(section 6: the young:old ratio; section 8, scenario 2: a configured minimum young
size) and the platform's minimum young size behind `young_gen_size_lower_bound`. -/
structure GenerationInputs where
  NewRatio : Nat
  NewSize : Nat
  young_minimum : Nat
  deriving DecidableEq, Repr

/-- Modelled from the spec: the body of `GenCollectorPolicy::young_gen_size_lower_bound`
is not in the header.  The spec (section 4.3) says it returns the minimum
young-generation size enforced regardless of user configuration; here the platform's
minimum, rounded up to the generation alignment. -/
def GenCollectorPolicy.young_gen_size_lower_bound (p : GenCollectorPolicy)
    (g : GenerationInputs) : Nat :=
  align_size_up g.young_minimum p._gen_alignment

/-- Modelled from the spec: the body of `GenCollectorPolicy::bound_minus_alignment` is
not in the header, which declares it with the comment "Bound the value by the given
maximum minus the min_alignment".  The spec (section 4.3) says it clamps the desired
size to at most the maximum minus the alignment. -/
def GenCollectorPolicy.bound_minus_alignment (p : GenCollectorPolicy)
    (desired_size maximum_size : Nat) : Nat :=
  min desired_size (maximum_size - p._gen_alignment)

/-- Modelled from the spec: the young-generation size derived from a heap size.  The
spec says `scale_by_NewRatio_aligned` derives it from the total heap size and the
ratio (section 4.3), that a larger configured minimum young size raises it
(section 8, scenario 2), that the lower bound is enforced regardless of configuration,
and that `bound_minus_alignment` keeps it below the heap size. -/
def GenCollectorPolicy.young_size_for (p : GenCollectorPolicy) (g : GenerationInputs)
    (heap_size : Nat) : Nat :=
  let floor_size :=
    max (p.young_gen_size_lower_bound g) (align_size_up g.NewSize p._gen_alignment)
  p.bound_minus_alignment
    (max floor_size (p.scale_by_NewRatio_aligned g.NewRatio heap_size)) heap_size

/-- Modelled from the spec: the body of `GenCollectorPolicy::initialize_size_info` is
not in the header.  It runs the base class derivation of the heap sizes (section 4.2)
and derives the minimum, initial and maximum size of generation 0 from the minimum,
initial and maximum heap size. -/
def GenCollectorPolicy.initialize_size_info (p : GenCollectorPolicy) (g : GenerationInputs)
    (f : SizeFlags) : GenCollectorPolicy :=
  let q : GenCollectorPolicy :=
    { p with toCollectorPolicy := p.toCollectorPolicy.initialize_size_info f }
  { q with
    _min_gen0_size := q.young_size_for g q._min_heap_byte_size,
    _initial_gen0_size := q.young_size_for g q._initial_heap_byte_size,
    _max_gen0_size := q.young_size_for g q._max_heap_byte_size }

/-- Modelled from the spec: the body of
`TwoGenerationCollectorPolicy::initialize_size_info` is not in the header.  It runs the
derivation of `GenCollectorPolicy` and gives generation 1 the rest of each heap size,
so that the two generations sum to the heap size (section 8, scenarios 1 and 2). -/
def TwoGenerationCollectorPolicy.initialize_size_info (p : TwoGenerationCollectorPolicy)
    (g : GenerationInputs) (f : SizeFlags) : TwoGenerationCollectorPolicy :=
  let q : TwoGenerationCollectorPolicy :=
    { p with toGenCollectorPolicy := p.toGenCollectorPolicy.initialize_size_info g f }
  { q with
    _min_gen1_size := q._min_heap_byte_size - q._min_gen0_size,
    _initial_gen1_size := q._initial_heap_byte_size - q._initial_gen0_size,
    _max_gen1_size := q._max_heap_byte_size - q._max_gen0_size }

/-- Modelled from the spec: the final overriders that `initialize_all` calls on a
two-generation policy, acting on the configuration and the object.  A fatal
configuration error (`none`) ends the run: the later hooks have nothing to run on. -/
def TwoGenerationCollectorPolicy.vtable (cfg : AlignmentInputs) (g : GenerationInputs)
    (specs : Nat) : VTable (Option World) :=
  { initialize_alignments :=
      Option.map (fun w =>
        { w with policy := TwoGenerationCollectorPolicy.initialize_alignments cfg w.policy }),
    initialize_flags := fun s =>
      s.bind (fun w =>
        (w.policy.toCollectorPolicy.initialize_flags w.flags).map
          (fun f => { w with flags := f })),
    initialize_size_info :=
      Option.map (fun w => { w with policy := w.policy.initialize_size_info g w.flags }),
    initialize_generations :=
      Option.map (fun w => { w with policy := w.policy.initialize_generations specs }) }

/-- The state in which `initialize_all()` leaves a two-generation policy that starts
in world `w`, or `none` after a fatal configuration error. -/
def TwoGenerationCollectorPolicy.after_initialize_all (cfg : AlignmentInputs)
    (g : GenerationInputs) (specs : Nat) (w : World) : Option World :=
  (GenCollectorPolicy.initialize_all (TwoGenerationCollectorPolicy.vtable cfg g specs)
    { state := some w, trace := [] }).state

/-- The three size triples are ordered `min <= initial <= max` and every member is a
multiple of its alignment: the generation alignment for the generation sizes, the
heap alignment for the heap sizes. -/
def TwoGenerationCollectorPolicy.sizes_consistent (p : TwoGenerationCollectorPolicy) : Prop :=
  (p._min_gen0_size ≤ p._initial_gen0_size ∧ p._initial_gen0_size ≤ p._max_gen0_size) ∧
    (p._min_gen1_size ≤ p._initial_gen1_size ∧ p._initial_gen1_size ≤ p._max_gen1_size) ∧
    (p._min_heap_byte_size ≤ p._initial_heap_byte_size ∧
      p._initial_heap_byte_size ≤ p._max_heap_byte_size) ∧
    (p._min_gen0_size % p._gen_alignment = 0 ∧ p._initial_gen0_size % p._gen_alignment = 0 ∧
      p._max_gen0_size % p._gen_alignment = 0) ∧
    (p._min_gen1_size % p._gen_alignment = 0 ∧ p._initial_gen1_size % p._gen_alignment = 0 ∧
      p._max_gen1_size % p._gen_alignment = 0) ∧
    (p._min_heap_byte_size % p._heap_alignment = 0 ∧
      p._initial_heap_byte_size % p._heap_alignment = 0 ∧
      p._max_heap_byte_size % p._heap_alignment = 0)

instance (p : TwoGenerationCollectorPolicy) : Decidable p.sizes_consistent := by
  unfold TwoGenerationCollectorPolicy.sizes_consistent
  infer_instance

/-! ## The operations that can follow `initialize_alignments` -/

/-- Modelled from the spec: the managed heap that the allocation entry points act on
(sections 2, 4.2 and 4.3, and scenario 3 of section 8): the size of a word, the bytes
committed so far, the free words of the young and of the old generation, the address
handed out next, and the size of the most recent allocation that failed in the old
generation. -/
structure HeapState where
  bytes_per_word : Nat
  committed_bytes : Nat
  young_free_words : Nat
  old_free_words : Nat
  next_address : Nat
  old_failure_words : Option Nat
  deriving DecidableEq, Repr

/-- Modelled from the spec: an allocation attempt in the young generation (section 2:
the policy "attempts the target generation"); a block address, or `NULL`. -/
def HeapState.allocate_young (h : HeapState) (size : Nat) : Option Nat × HeapState :=
  if size ≤ h.young_free_words then
    (some h.next_address,
      { h with
        young_free_words := h.young_free_words - size,
        next_address := h.next_address + size * h.bytes_per_word })
  else
    (none, h)

/-- Modelled from the spec: an allocation attempt in the old generation; a failure is
remembered for `should_try_older_generation_allocation`. -/
def HeapState.allocate_old (h : HeapState) (size : Nat) : Option Nat × HeapState :=
  if size ≤ h.old_free_words then
    (some h.next_address,
      { h with
        old_free_words := h.old_free_words - size,
        next_address := h.next_address + size * h.bytes_per_word })
  else
    (none, { h with old_failure_words := some size })

/-- Modelled from the spec: the body of
`GenCollectorPolicy::should_try_older_generation_allocation` is not in the header.  The
spec (section 4.3) says the default is true unless a recent allocation of comparable
size already failed in the older generation. -/
def GenCollectorPolicy.should_try_older_generation_allocation (_p : GenCollectorPolicy)
    (h : HeapState) (word_size : Nat) : Bool :=
  match h.old_failure_words with
  | none => true
  | some failed => decide (word_size < failed)

/-- Modelled from the spec: the body of `GenCollectorPolicy::expand_heap_and_allocate`
is not in the header.  The spec (section 4.3) says it attempts to grow the total heap,
subject to the maximum heap byte size and respecting the alignment, and then retries
the allocation once. -/
def GenCollectorPolicy.expand_heap_and_allocate (p : GenCollectorPolicy) (h : HeapState)
    (size : Nat) (_is_tlab : Bool) : Option Nat × HeapState :=
  let growth := align_size_up (size * h.bytes_per_word) p._gen_alignment
  if h.committed_bytes + growth ≤ p._max_heap_byte_size then
    HeapState.allocate_old
      { h with
        committed_bytes := h.committed_bytes + growth,
        old_free_words := h.old_free_words + growth / h.bytes_per_word } size
  else
    (none, h)

/-- Modelled from the spec: the body of `GenCollectorPolicy::mem_allocate_work` is not
in the header.  The spec (sections 2 and 4.2) says it attempts the young generation,
falls back to the older generation per policy, and reports failure otherwise; the
header says `gc_overhead_limit_was_exceeded` is set when the adaptive size policy finds
the collection overhead excessive and that caused `NULL` to be returned.  The finding
of the adaptive size policy is the argument `overhead_limit`. -/
def GenCollectorPolicy.mem_allocate_work (p : GenCollectorPolicy) (h : HeapState)
    (size : Nat) (_is_tlab : Bool) (overhead_limit : Bool) :
    (Option Nat × Bool) × HeapState :=
  match h.allocate_young size with
  | (some block, h1) => ((some block, false), h1)
  | (none, h1) =>
    if p.should_try_older_generation_allocation h1 size then
      match h1.allocate_old size with
      | (some block, h2) => ((some block, false), h2)
      | (none, h2) => ((none, overhead_limit), h2)
    else
      ((none, overhead_limit), h1)

/-- Modelled from the spec: the body of `GenCollectorPolicy::satisfy_failed_allocation`
is not in the header.  The spec (section 4.2 and scenario 3 of section 8) says it is
the last resort after a generation-local attempt failed: it retries the old
generation and then expands the heap, and reports failure when the heap is already at
its maximum. -/
def GenCollectorPolicy.satisfy_failed_allocation (p : GenCollectorPolicy) (h : HeapState)
    (size : Nat) (is_tlab : Bool) : Option Nat × HeapState :=
  match h.allocate_old size with
  | (some block, h1) => (some block, h1)
  | (none, h1) => p.expand_heap_and_allocate h1 size is_tlab

/-- The body of `GenCollectorPolicy::post_heap_initialize()` (collectorPolicy.hpp:321-323):
its only statement is the assertion `_max_gen0_size == MaxNewSize`, whose condition is
the result.  The flag `MaxNewSize` is an argument. -/
def GenCollectorPolicy.post_heap_initialize (p : GenCollectorPolicy) (MaxNewSize : Nat) :
    Bool :=
  decide (p._max_gen0_size = MaxNewSize)

/-- Modelled from the spec: the body of `GenCollectorPolicy::initialize_size_policy` is
not in the header.  The spec (section 6) says the policy calls it once, after the
generations exist, to seed the adaptive size policy; on the policy object this fills
the member `_size_policy` with the handle of that collaborator. -/
def GenCollectorPolicy.initialize_size_policy (p : GenCollectorPolicy)
    (_init_eden_size _init_promo_size _init_survivor_size : Nat) (created : Nat) :
    GenCollectorPolicy :=
  { p with _size_policy := some created }

/-- The two sizes that the pointer arguments of `adjust_gen0_sizes` refer to: two
variables of the caller, or the minimum, initial or maximum sizes of the two
generations in the policy object. -/
inductive SizeCells
  | caller (gen0_size gen1_size : Nat)
  | min_sizes
  | initial_sizes
  | max_sizes
  deriving DecidableEq, Repr

/-- Reading through the two pointers. -/
def SizeCells.read (cells : SizeCells) (p : TwoGenerationCollectorPolicy) : Nat × Nat :=
  match cells with
  | .caller gen0_size gen1_size => (gen0_size, gen1_size)
  | .min_sizes => (p._min_gen0_size, p._min_gen1_size)
  | .initial_sizes => (p._initial_gen0_size, p._initial_gen1_size)
  | .max_sizes => (p._max_gen0_size, p._max_gen1_size)

/-- Writing through the two pointers. -/
def SizeCells.write (cells : SizeCells) (p : TwoGenerationCollectorPolicy)
    (gen0_size gen1_size : Nat) : TwoGenerationCollectorPolicy :=
  match cells with
  | .caller _ _ => p
  | .min_sizes => { p with _min_gen0_size := gen0_size, _min_gen1_size := gen1_size }
  | .initial_sizes =>
    { p with _initial_gen0_size := gen0_size, _initial_gen1_size := gen1_size }
  | .max_sizes => { p with _max_gen0_size := gen0_size, _max_gen1_size := gen1_size }

/-- What a call hands back to its caller. -/
inductive Returned
  | nothing
  | flag (value : Bool)
  | size (value : Nat)
  | pointer (value : Option Nat)
  | sizes (result : Bool) (gen0_size gen1_size : Nat)
  | allocation (result : Option Nat) (gc_overhead_limit_was_exceeded : Bool)
  deriving DecidableEq, Repr

/-- The configuration and the policy object, the heap they manage, and what the most
recent call handed back. -/
structure Machine where
  world : World
  heap : HeapState
  returned : Returned
  deriving DecidableEq, Repr

/-- The operations on a policy that the headers declare and the specification
describes: the initialization hooks and `initialize_all` itself, the soft-reference
protocol, the sizing helpers, the allocation entry points, `initialize_size_policy`,
`post_heap_initialize` and the three alignment accessors.  The members left out are the
other one-line accessors and identification functions, which only read, and the calls
into collaborators that the specification does not describe (remembered set, metadata
allocation, performance counters). -/
inductive Operation
  | initialize_alignments (cfg : AlignmentInputs)
  | initialize_flags
  | initialize_size_info (g : GenerationInputs)
  | initialize_generations (specs : Nat)
  | initialize_all (cfg : AlignmentInputs) (g : GenerationInputs) (specs : Nat)
  | set_should_clear_all_soft_refs (v : Bool)
  | use_should_clear_all_soft_refs (v : Bool)
  | set_all_soft_refs_clear (v : Bool)
  | cleared_all_soft_refs
  | adjust_gen0_sizes (cells : SizeCells) (heap_size : Nat)
  | scale_by_NewRatio_aligned (NewRatio base_size : Nat)
  | bound_minus_alignment (desired_size maximum_size : Nat)
  | young_gen_size_lower_bound (g : GenerationInputs)
  | should_try_older_generation_allocation (word_size : Nat)
  | mem_allocate_work (size : Nat) (is_tlab : Bool) (overhead_limit : Bool)
  | satisfy_failed_allocation (size : Nat) (is_tlab : Bool)
  | expand_heap_and_allocate (size : Nat) (is_tlab : Bool)
  | initialize_size_policy (init_eden_size init_promo_size init_survivor_size created : Nat)
  | post_heap_initialize (MaxNewSize : Nat)
  | space_alignment
  | gen_alignment
  | heap_alignment
  deriving DecidableEq, Repr

/-- The effect of one operation on a two-generation policy: each case calls the member
function it names.  `none` is the fatal configuration error with which
`initialize_flags` ends the run. -/
def Operation.apply (op : Operation) (m : Machine) : Option Machine :=
  let p := m.world.policy
  let gen := p.toGenCollectorPolicy
  let base := p.toCollectorPolicy
  let with_policy (q : TwoGenerationCollectorPolicy) (r : Returned) : Machine :=
    { m with world := { m.world with policy := q }, returned := r }
  let with_gen (q : GenCollectorPolicy) (r : Returned) : Machine :=
    with_policy { p with toGenCollectorPolicy := q } r
  let with_base (b : CollectorPolicy) (r : Returned) : Machine :=
    with_policy { p with toCollectorPolicy := b } r
  match op with
  | .initialize_alignments cfg =>
    some (with_policy (TwoGenerationCollectorPolicy.initialize_alignments cfg p)
      Returned.nothing)
  | .initialize_flags =>
    (base.initialize_flags m.world.flags).map
      (fun f => { m with world := { m.world with flags := f }, returned := Returned.nothing })
  | .initialize_size_info g =>
    some (with_policy (p.initialize_size_info g m.world.flags) Returned.nothing)
  | .initialize_generations specs =>
    some (with_policy (p.initialize_generations specs) Returned.nothing)
  | .initialize_all cfg g specs =>
    (TwoGenerationCollectorPolicy.after_initialize_all cfg g specs m.world).map
      (fun w => { m with world := w, returned := Returned.nothing })
  | .set_should_clear_all_soft_refs v =>
    some (with_base (base.set_should_clear_all_soft_refs v) Returned.nothing)
  | .use_should_clear_all_soft_refs v =>
    some (with_base (base.use_should_clear_all_soft_refs v).2
      (Returned.flag (base.use_should_clear_all_soft_refs v).1))
  | .set_all_soft_refs_clear v =>
    some (with_base (base.set_all_soft_refs_clear v) Returned.nothing)
  | .cleared_all_soft_refs => some (with_base base.cleared_all_soft_refs Returned.nothing)
  | .adjust_gen0_sizes cells heap_size =>
    let out := p.adjust_gen0_sizes (cells.read p).1 (cells.read p).2 heap_size
    some (with_policy (cells.write p out.gen0_size out.gen1_size)
      (Returned.sizes out.result out.gen0_size out.gen1_size))
  | .scale_by_NewRatio_aligned NewRatio base_size =>
    some { m with returned := Returned.size (gen.scale_by_NewRatio_aligned NewRatio base_size) }
  | .bound_minus_alignment desired_size maximum_size =>
    some { m with
           returned := Returned.size (gen.bound_minus_alignment desired_size maximum_size) }
  | .young_gen_size_lower_bound g =>
    some { m with returned := Returned.size (gen.young_gen_size_lower_bound g) }
  | .should_try_older_generation_allocation word_size =>
    some { m with
           returned :=
             Returned.flag (gen.should_try_older_generation_allocation m.heap word_size) }
  | .mem_allocate_work size is_tlab overhead_limit =>
    let out := gen.mem_allocate_work m.heap size is_tlab overhead_limit
    some { m with heap := out.2, returned := Returned.allocation out.1.1 out.1.2 }
  | .satisfy_failed_allocation size is_tlab =>
    let out := gen.satisfy_failed_allocation m.heap size is_tlab
    some { m with heap := out.2, returned := Returned.pointer out.1 }
  | .expand_heap_and_allocate size is_tlab =>
    let out := gen.expand_heap_and_allocate m.heap size is_tlab
    some { m with heap := out.2, returned := Returned.pointer out.1 }
  | .initialize_size_policy init_eden_size init_promo_size init_survivor_size created =>
    some (with_gen
      (gen.initialize_size_policy init_eden_size init_promo_size init_survivor_size created)
      Returned.nothing)
  | Operation.post_heap_initialize MaxNewSize =>
    let holds := GenCollectorPolicy.post_heap_initialize gen MaxNewSize
    some { m with returned := Returned.flag holds }
  | .space_alignment => some { m with returned := Returned.size base._space_alignment }
  | .gen_alignment => some { m with returned := Returned.size gen._gen_alignment }
  | .heap_alignment => some { m with returned := Returned.size base._heap_alignment }

/-- One mebibyte, in bytes. -/
def MiB : Nat := 1048576

/-- A two-generation policy object with every alignment at one mebibyte, a heap
between 64 and 512 MiB and generation bounds of 16 to 128 MiB (young) and 32 to
384 MiB (old). -/
def example_policy : TwoGenerationCollectorPolicy :=
  { _gc_policy_counters := none,
    _initial_heap_byte_size := 256 * MiB,
    _max_heap_byte_size := 512 * MiB,
    _min_heap_byte_size := 64 * MiB,
    _space_alignment := MiB,
    _heap_alignment := MiB,
    _max_heap_size_cmdline := false,
    _size_policy := none,
    _should_clear_all_soft_refs := false,
    _all_soft_refs_clear := false,
    _min_gen0_size := 16 * MiB,
    _initial_gen0_size := 85 * MiB,
    _max_gen0_size := 128 * MiB,
    _gen_alignment := MiB,
    _generations := none,
    _min_gen1_size := 32 * MiB,
    _initial_gen1_size := 170 * MiB,
    _max_gen1_size := 384 * MiB }

/-- Platform values with large pages of 2 MiB over a 1 MiB space alignment and a
heap alignment request of 3 MiB. -/
def example_inputs : AlignmentInputs :=
  { space_alignment := MiB, large_page_alignment := some (2 * MiB),
    heap_alignment_request := 3 * MiB }

/-- A configuration of 64 MiB minimum, 256 MiB initial and 512 MiB maximum heap size
around `example_policy`. -/
def example_world : World :=
  { flags := { InitialHeapSize := 256 * MiB, MinHeapSize := 64 * MiB,
               MaxHeapSize := 512 * MiB },
    policy := example_policy }

/-! ## Identification of the policy class -/

/-- The enum `CollectorPolicy::Name` (collectorPolicy.hpp:131-137). -/
inductive CollectorPolicy.Name
  | CollectorPolicyKind
  | TwoGenerationCollectorPolicyKind
  | ConcurrentMarkSweepPolicyKind
  | ASConcurrentMarkSweepPolicyKind
  | G1CollectorPolicyKind
  deriving DecidableEq, Repr

/-- Which classes define `kind` in their class body: `CollectorPolicy`
(collectorPolicy.hpp:208-210), `TwoGenerationCollectorPolicy` (collectorPolicy.hpp:362-364)
and `ASConcurrentMarkSweepPolicy` (cmsCollectorPolicy.hpp:62-64). -/
def PolicyClass.defines_kind :
    PolicyClass → Option (Hotspot.TwoGenerationCollectorPolicy → Hotspot.CollectorPolicy.Name)
  | .CollectorPolicy => some (fun _ => Hotspot.CollectorPolicy.Name.CollectorPolicyKind)
  | .TwoGenerationCollectorPolicy =>
    some (fun _ => Hotspot.CollectorPolicy.Name.TwoGenerationCollectorPolicyKind)
  | .ASConcurrentMarkSweepPolicy =>
    some (fun _ => Hotspot.CollectorPolicy.Name.ASConcurrentMarkSweepPolicyKind)
  | _ => none

/-- The virtual call `p->kind()` on an object of dynamic class `c`. -/
def PolicyClass.kind (c : PolicyClass) (p : Hotspot.TwoGenerationCollectorPolicy) :
    Option Hotspot.CollectorPolicy.Name :=
  (PolicyClass.final_overrider PolicyClass.defines_kind c).map (fun f => f p)

/-- Which classes define `has_soft_ended_eden`: `CollectorPolicy` returns false
(collectorPolicy.hpp:213-215); `ConcurrentMarkSweepPolicy` declares an overrider
(cmsCollectorPolicy.hpp:49) whose body is in a `.cpp` file and is the parameter
`cms_body`. -/
def PolicyClass.defines_has_soft_ended_eden
    (cms_body : Hotspot.TwoGenerationCollectorPolicy → Bool) :
    PolicyClass → Option (Hotspot.TwoGenerationCollectorPolicy → Bool)
  | .CollectorPolicy => some (fun _ => false)
  | .ConcurrentMarkSweepPolicy => some cms_body
  | _ => none

/-- The virtual call `p->has_soft_ended_eden()` on an object of dynamic class `c`. -/
def PolicyClass.has_soft_ended_eden (c : PolicyClass)
    (cms_body : Hotspot.TwoGenerationCollectorPolicy → Bool)
    (p : Hotspot.TwoGenerationCollectorPolicy) : Option Bool :=
  (PolicyClass.final_overrider (PolicyClass.defines_has_soft_ended_eden cms_body) c).map
    (fun f => f p)

/-- The classes derived from (or equal to) `ConcurrentMarkSweepPolicy`. -/
def PolicyClass.derives_concurrent_mark_sweep (c : PolicyClass) : Bool :=
  decide (PolicyClass.ConcurrentMarkSweepPolicy ∈ c.lineage)

/-- The classes that exist in a build: `ConcurrentMarkSweepPolicy` is declared only
under `#if INCLUDE_ALL_GCS` (collectorPolicy.hpp:52-55), and so is its subclass.  The
macro `INCLUDE_ALL_GCS` is defined outside these files and is a parameter. -/
def PolicyClass.declared (INCLUDE_ALL_GCS : Bool) : PolicyClass → Bool
  | .ConcurrentMarkSweepPolicy => INCLUDE_ALL_GCS
  | .ASConcurrentMarkSweepPolicy => INCLUDE_ALL_GCS
  | _ => true

/-- Which classes define `as_generation_policy` (collectorPolicy.hpp:153, 298).  A
pointer result is `none` for `NULL` and `some self` for `this`. -/
def PolicyClass.defines_as_generation_policy : PolicyClass → Option (Nat → Option Nat)
  | .CollectorPolicy => some (fun _ => none)
  | .GenCollectorPolicy => some (fun self => some self)
  | _ => none

/-- Which classes define `as_two_generation_policy` (collectorPolicy.hpp:154, 357). -/
def PolicyClass.defines_as_two_generation_policy : PolicyClass → Option (Nat → Option Nat)
  | .CollectorPolicy => some (fun _ => none)
  | .TwoGenerationCollectorPolicy => some (fun self => some self)
  | _ => none

/-- Which classes define `as_mark_sweep_policy` (collectorPolicy.hpp:155, 380). -/
def PolicyClass.defines_as_mark_sweep_policy : PolicyClass → Option (Nat → Option Nat)
  | .CollectorPolicy => some (fun _ => none)
  | .MarkSweepPolicy => some (fun self => some self)
  | _ => none

/-- Which classes define `as_concurrent_mark_sweep_policy`: `CollectorPolicy` under
`#if INCLUDE_ALL_GCS` (collectorPolicy.hpp:156-157) and `ConcurrentMarkSweepPolicy`
(cmsCollectorPolicy.hpp:40). -/
def PolicyClass.defines_as_concurrent_mark_sweep_policy (INCLUDE_ALL_GCS : Bool) :
    PolicyClass → Option (Nat → Option Nat)
  | .CollectorPolicy => if INCLUDE_ALL_GCS then some (fun _ => none) else none
  | .ConcurrentMarkSweepPolicy => some (fun self => some self)
  | _ => none

/-- Which classes define `as_g1_policy`: only `CollectorPolicy`, under
`#if INCLUDE_ALL_GCS` (collectorPolicy.hpp:158). -/
def PolicyClass.defines_as_g1_policy (INCLUDE_ALL_GCS : Bool) :
    PolicyClass → Option (Nat → Option Nat)
  | .CollectorPolicy => if INCLUDE_ALL_GCS then some (fun _ => none) else none
  | _ => none

/-- The virtual call `p->as_generation_policy()`; the outer `none` means that no
class of the lineage declares the member. -/
def PolicyClass.as_generation_policy (c : PolicyClass) (self : Nat) : Option (Option Nat) :=
  (PolicyClass.final_overrider PolicyClass.defines_as_generation_policy c).map (fun f => f self)

/-- The virtual call `p->as_two_generation_policy()`. -/
def PolicyClass.as_two_generation_policy (c : PolicyClass) (self : Nat) :
    Option (Option Nat) :=
  (PolicyClass.final_overrider PolicyClass.defines_as_two_generation_policy c).map
    (fun f => f self)

/-- The virtual call `p->as_mark_sweep_policy()`. -/
def PolicyClass.as_mark_sweep_policy (c : PolicyClass) (self : Nat) : Option (Option Nat) :=
  (PolicyClass.final_overrider PolicyClass.defines_as_mark_sweep_policy c).map (fun f => f self)

/-- The virtual call `p->as_concurrent_mark_sweep_policy()`. -/
def PolicyClass.as_concurrent_mark_sweep_policy (INCLUDE_ALL_GCS : Bool) (c : PolicyClass)
    (self : Nat) : Option (Option Nat) :=
  (PolicyClass.final_overrider
    (PolicyClass.defines_as_concurrent_mark_sweep_policy INCLUDE_ALL_GCS) c).map
    (fun f => f self)

/-- The virtual call `p->as_g1_policy()`. -/
def PolicyClass.as_g1_policy (INCLUDE_ALL_GCS : Bool) (c : PolicyClass) (self : Nat) :
    Option (Option Nat) :=
  (PolicyClass.final_overrider (PolicyClass.defines_as_g1_policy INCLUDE_ALL_GCS) c).map
    (fun f => f self)

/-- The test `ptr != NULL` on the result of an `as_X_policy()` call. -/
def not_NULL (result : Option (Option Nat)) : Bool :=
  match result with
  | some (some _) => true
  | _ => false

/-- The non-virtual `is_generation_policy()` (collectorPolicy.hpp:161). -/
def PolicyClass.is_generation_policy (c : PolicyClass) (self : Nat) : Bool :=
  not_NULL (c.as_generation_policy self)

/-- The non-virtual `is_two_generation_policy()` (collectorPolicy.hpp:162). -/
def PolicyClass.is_two_generation_policy (c : PolicyClass) (self : Nat) : Bool :=
  not_NULL (c.as_two_generation_policy self)

/-- The non-virtual `is_mark_sweep_policy()` (collectorPolicy.hpp:163). -/
def PolicyClass.is_mark_sweep_policy (c : PolicyClass) (self : Nat) : Bool :=
  not_NULL (c.as_mark_sweep_policy self)

/-- The non-virtual `is_concurrent_mark_sweep_policy()` (collectorPolicy.hpp:164-170):
the pointer test under `INCLUDE_ALL_GCS`, the constant false otherwise. -/
def PolicyClass.is_concurrent_mark_sweep_policy (INCLUDE_ALL_GCS : Bool) (c : PolicyClass)
    (self : Nat) : Bool :=
  if INCLUDE_ALL_GCS then
    not_NULL (c.as_concurrent_mark_sweep_policy INCLUDE_ALL_GCS self)
  else
    false

/-- The non-virtual `is_g1_policy()` (collectorPolicy.hpp:164-170). -/
def PolicyClass.is_g1_policy (INCLUDE_ALL_GCS : Bool) (c : PolicyClass) (self : Nat) : Bool :=
  if INCLUDE_ALL_GCS then
    not_NULL (c.as_g1_policy INCLUDE_ALL_GCS self)
  else
    false

/-! ## `GCCause` -/

/-- The enum `GCCause::Cause` (gcCause.hpp:41-76). -/
inductive GCCause.Cause
  | _java_lang_system_gc
  | _full_gc_alot
  | _scavenge_alot
  | _allocation_profiler
  | _jvmti_force_gc
  | _gc_locker
  | _heap_inspection
  | _heap_dump
  | _no_gc
  | _no_cause_specified
  | _allocation_failure
  | _tenured_generation_full
  | _metadata_GC_threshold
  | _cms_generation_full
  | _cms_initial_mark
  | _cms_final_remark
  | _cms_concurrent_mark
  | _old_generation_expanded_on_last_scavenge
  | _old_generation_too_full_to_scavenge
  | _adaptive_size_policy
  | _g1_inc_collection_pause
  | _g1_humongous_allocation
  | _last_ditch_collection
  | _last_gc_cause
  deriving DecidableEq, Repr

/-- The body of `GCCause::is_user_requested_gc` (gcCause.hpp:78-81). -/
def GCCause.is_user_requested_gc (cause : GCCause.Cause) : Bool :=
  cause == GCCause.Cause._java_lang_system_gc ||
    cause == GCCause.Cause._jvmti_force_gc

/-- The body of `GCCause::is_serviceability_requested_gc` (gcCause.hpp:83-88). -/
def GCCause.is_serviceability_requested_gc (cause : GCCause.Cause) : Bool :=
  cause == GCCause.Cause._jvmti_force_gc ||
    cause == GCCause.Cause._heap_inspection ||
    cause == GCCause.Cause._heap_dump

/-- The causes listed under "implementation specific" in the enum, with the two
reserved causes `_no_gc` and `_allocation_failure`. -/
def GCCause.collector_causes : List GCCause.Cause :=
  [GCCause.Cause._no_gc, GCCause.Cause._allocation_failure,
    GCCause.Cause._tenured_generation_full, GCCause.Cause._metadata_GC_threshold,
    GCCause.Cause._cms_generation_full, GCCause.Cause._cms_initial_mark,
    GCCause.Cause._cms_final_remark, GCCause.Cause._cms_concurrent_mark,
    GCCause.Cause._old_generation_expanded_on_last_scavenge,
    GCCause.Cause._old_generation_too_full_to_scavenge,
    GCCause.Cause._adaptive_size_policy, GCCause.Cause._g1_inc_collection_pause,
    GCCause.Cause._g1_humongous_allocation, GCCause.Cause._last_ditch_collection]

/-! ## `GCCauseString` -/

/-- The characters of the C string that starts a region of memory: the bytes before
the first NUL.  This is what `%s` prints and what a reader of a `const char*` sees. -/
def c_str (memory : List Nat) : List Nat :=
  memory.takeWhile (fun b => b != 0)

/-- A character array after bytes have been stored from an offset on. -/
def store (buffer : List Nat) (offset : Nat) (bytes : List Nat) : List Nat :=
  buffer.take offset ++ bytes ++ buffer.drop (offset + bytes.length)

/-- Modelled from the spec: `jio_snprintf` is defined outside these files and the spec
is silent on it; the model follows the comment at its call (gcCause.hpp:108: it
returns the number of elements of the array that the text occupies) and the
`snprintf` contract.  For a formatted text that fits in `count` bytes together with
its terminating NUL, the text and the NUL are stored at `buffer + offset` and the
length of the text is returned; otherwise -1 is returned, after storing the part that
fits when there is room for any. -/
def jio_snprintf (buffer : List Nat) (offset : Nat) (count : Int) (text : List Nat) :
    Int × List Nat :=
  if count ≤ 0 then
    (-1, buffer)
  else if (text.length : Int) < count then
    ((text.length : Int), store buffer offset (text ++ [0]))
  else
    (-1, store buffer offset (text.take (count.toNat - 1) ++ [0]))

/-- Data members of `class GCCauseString`. -/
structure GCCauseString where
  _buffer : List Nat
  _position : Int
  deriving DecidableEq, Repr

/-- The constant `GCCauseString::_length` (gcCause.hpp:100). -/
def GCCauseString._length : Int := 128

/-- The text the constructor formats: `"%s (%s) "` of the prefix and the cause's
string under `PrintGCCause`, else `"%s "` of the prefix (gcCause.hpp:107-112).
`GCCause::to_string` is defined in a `.cpp` file and is a parameter; 32, 40 and 41
are the characters space, `(` and `)`. -/
def GCCauseString.constructor_text (PrintGCCause : Bool)
    (to_string : GCCause.Cause → List Nat) (prefix_str : List Nat)
    (cause : GCCause.Cause) : List Nat :=
  if PrintGCCause then
    c_str prefix_str ++ [32, 40] ++ c_str (to_string cause) ++ [41, 32]
  else
    c_str prefix_str ++ [32]

/-- The constructor `GCCauseString(prefix, cause)` (gcCause.hpp:105-115), run on an
array with arbitrary content.  The flag `PrintGCCause` is a parameter. -/
def GCCauseString.construct (PrintGCCause : Bool) (to_string : GCCause.Cause → List Nat)
    (uninitialized : List Nat) (prefix_str : List Nat) (cause : GCCause.Cause) :
    GCCauseString :=
  let out := jio_snprintf uninitialized 0 GCCauseString._length
    (GCCauseString.constructor_text PrintGCCause to_string prefix_str cause)
  { _buffer := out.2, _position := out.1 }

/-- The condition of the assertion that ends the constructor (gcCause.hpp:113). -/
def GCCauseString.constructor_assert (g : GCCauseString) : Bool :=
  decide (0 ≤ g._position ∧ g._position ≤ GCCauseString._length)

/-- The call of `jio_snprintf` in `append` (gcCause.hpp:119): its result `res` and the
array afterwards. -/
def GCCauseString.append_call (g : GCCauseString) (str : List Nat) : Int × List Nat :=
  jio_snprintf g._buffer g._position.toNat (GCCauseString._length - g._position) (c_str str)

/-- The member function `append(str)` (gcCause.hpp:118-124); `none` when `_position`
is negative, so that `_buffer + _position` points in front of the array. -/
def GCCauseString.append (g : GCCauseString) (str : List Nat) : Option GCCauseString :=
  if g._position < 0 then
    none
  else
    some { _buffer := (g.append_call str).2,
           _position := g._position + (g.append_call str).1 }

/-- The condition of the assertion in `append` (gcCause.hpp:121). -/
def GCCauseString.append_assert (g : GCCauseString) (str : List Nat) : Bool :=
  decide (0 ≤ (g.append_call str).1 ∧
    g._position + (g.append_call str).1 ≤ GCCauseString._length)

/-- The conversion `operator const char*()` (gcCause.hpp:127-129), read as a C string. -/
def GCCauseString.to_chars (g : GCCauseString) : List Nat :=
  c_str g._buffer

/-- A cause table that prints every cause as `Allocation Failure`. -/
def example_to_string : GCCause.Cause → List Nat :=
  fun _ => [65, 108, 108, 111, 99, 97, 116, 105, 111, 110, 32, 70, 97, 105, 108, 117, 114, 101]

/-- An array of 128 bytes, each holding 7. -/
def example_uninitialized : List Nat :=
  List.replicate 128 7

/-- A young:old ratio of 2 with no configured or platform minimum young size. -/
def example_generation_inputs : GenerationInputs :=
  { NewRatio := 2, NewSize := 0, young_minimum := 0 }

/-- The world in which `initialize_all()` leaves `example_world` under
`example_inputs` and `example_generation_inputs`: alignments of 1, 2 and 4 MiB, a heap
of 64, 256 and 512 MiB, a young generation of 20, 84 and 170 MiB and an old
generation of 44, 172 and 342 MiB. -/
def example_world_initialized : World :=
  { flags := { InitialHeapSize := 256 * MiB, MinHeapSize := 64 * MiB,
               MaxHeapSize := 512 * MiB },
    policy :=
      { example_policy with
        _space_alignment := MiB,
        _gen_alignment := 2 * MiB,
        _heap_alignment := 4 * MiB,
        _min_heap_byte_size := 64 * MiB,
        _initial_heap_byte_size := 256 * MiB,
        _max_heap_byte_size := 512 * MiB,
        _min_gen0_size := 20 * MiB,
        _initial_gen0_size := 84 * MiB,
        _max_gen0_size := 170 * MiB,
        _min_gen1_size := 44 * MiB,
        _initial_gen1_size := 172 * MiB,
        _max_gen1_size := 342 * MiB,
        _generations := some 1 } }

/-- C1: for every table of hook overriders and every starting execution,
`CollectorPolicy::initialize_all()` records exactly the calls
`initialize_alignments`, `initialize_flags`, `initialize_size_info`, each once, in
this order, each call returning before the next one starts, and every hook runs on
the object state its predecessor left. -/
theorem C1_initialize_all_three_hooks_in_order {σ : Type} (vt : VTable σ) (r : Run σ) :
    (CollectorPolicy.initialize_all vt r).trace =
        r.trace ++ [Event.call Hook.initialize_alignments, Event.ret Hook.initialize_alignments,
          Event.call Hook.initialize_flags, Event.ret Hook.initialize_flags,
          Event.call Hook.initialize_size_info, Event.ret Hook.initialize_size_info] ∧
      (CollectorPolicy.initialize_all vt r).state =
        vt.initialize_size_info (vt.initialize_flags (vt.initialize_alignments r.state)) ∧
      (CollectorPolicy.initialize_all vt { state := r.state, trace := [] }).trace.length = 6 := by
  refine ⟨?_, rfl, rfl⟩
  simp [CollectorPolicy.initialize_all, invoke]

/-- C2: `GenCollectorPolicy::initialize_all()` first runs the whole base sequence
(`initialize_alignments`, `initialize_flags`, `initialize_size_info`, each called once,
in this order) and then calls `initialize_generations` once, last: its trace is those
four calls, which is the base trace with the last call appended, every hook runs on the
object state its predecessor left, and every class below `CollectorPolicy` dispatches
`initialize_all()` to this body. -/
theorem C2_gen_initialize_all_appends_generations {σ : Type} (vt : VTable σ) (r : Run σ) :
    (GenCollectorPolicy.initialize_all vt r).trace =
        r.trace ++ [Event.call Hook.initialize_alignments, Event.ret Hook.initialize_alignments,
          Event.call Hook.initialize_flags, Event.ret Hook.initialize_flags,
          Event.call Hook.initialize_size_info, Event.ret Hook.initialize_size_info,
          Event.call Hook.initialize_generations, Event.ret Hook.initialize_generations] ∧
      (GenCollectorPolicy.initialize_all vt r).state =
        vt.initialize_generations
          (vt.initialize_size_info (vt.initialize_flags (vt.initialize_alignments r.state))) ∧
      (CollectorPolicy.initialize_all vt r).trace =
        r.trace ++ [Event.call Hook.initialize_alignments, Event.ret Hook.initialize_alignments,
          Event.call Hook.initialize_flags, Event.ret Hook.initialize_flags,
          Event.call Hook.initialize_size_info, Event.ret Hook.initialize_size_info] ∧
      (GenCollectorPolicy.initialize_all vt r).trace =
        (CollectorPolicy.initialize_all vt r).trace ++
          [Event.call Hook.initialize_generations, Event.ret Hook.initialize_generations] ∧
      (GenCollectorPolicy.initialize_all vt r).state =
        vt.initialize_generations (CollectorPolicy.initialize_all vt r).state ∧
      (CollectorPolicy.initialize_all vt r).trace.count
        (Event.call Hook.initialize_generations) =
          r.trace.count (Event.call Hook.initialize_generations) ∧
      (GenCollectorPolicy.initialize_all vt r).trace.count
        (Event.call Hook.initialize_generations) =
          r.trace.count (Event.call Hook.initialize_generations) + 1 ∧
      PolicyClass.GenCollectorPolicy.initialize_all vt r =
        some (GenCollectorPolicy.initialize_all vt r) ∧
      PolicyClass.TwoGenerationCollectorPolicy.initialize_all vt r =
        some (GenCollectorPolicy.initialize_all vt r) ∧
      PolicyClass.MarkSweepPolicy.initialize_all vt r =
        some (GenCollectorPolicy.initialize_all vt r) ∧
      PolicyClass.ConcurrentMarkSweepPolicy.initialize_all vt r =
        some (GenCollectorPolicy.initialize_all vt r) ∧
      PolicyClass.ASConcurrentMarkSweepPolicy.initialize_all vt r =
        some (GenCollectorPolicy.initialize_all vt r) := by
  refine ⟨?_, rfl, ?_, rfl, rfl, ?_, ?_, rfl, rfl, rfl, rfl, rfl⟩
  · simp [GenCollectorPolicy.initialize_all, CollectorPolicy.initialize_all, invoke]
  · simp [CollectorPolicy.initialize_all, invoke]
  · simp [CollectorPolicy.initialize_all, invoke, List.count_cons]
  · simp [GenCollectorPolicy.initialize_all, CollectorPolicy.initialize_all, invoke,
      List.count_cons]

/-- C3: `use_should_clear_all_soft_refs(v)` returns the value that
`should_clear_all_soft_refs()` had before the call, leaves it false afterwards, and
its result is the same for every argument. -/
theorem C3_use_should_clear_returns_prior_and_resets (p : CollectorPolicy) (v w : Bool) :
    (p.use_should_clear_all_soft_refs v).1 = p.should_clear_all_soft_refs ∧
      (p.use_should_clear_all_soft_refs v).2.should_clear_all_soft_refs = false ∧
      p.use_should_clear_all_soft_refs v = p.use_should_clear_all_soft_refs w := by
  exact ⟨rfl, rfl, rfl⟩

/-- C4: after `set_should_clear_all_soft_refs(true)`, two calls of
`use_should_clear_all_soft_refs` in a row return true on the first call and false on
the second, whatever the arguments and the earlier state; and from any state the
first of two calls in a row returns the flag as it stood and the second returns false. -/
theorem C4_use_twice_true_then_false (p : CollectorPolicy) (v1 v2 : Bool) :
    ((p.set_should_clear_all_soft_refs true).use_should_clear_all_soft_refs v1).1 = true ∧
      (CollectorPolicy.use_should_clear_all_soft_refs
        ((p.set_should_clear_all_soft_refs true).use_should_clear_all_soft_refs v1).2 v2).1 =
          false ∧
      (p.use_should_clear_all_soft_refs v1).1 = p.should_clear_all_soft_refs ∧
      (CollectorPolicy.use_should_clear_all_soft_refs
        (p.use_should_clear_all_soft_refs v1).2 v2).1 = false := by
  exact ⟨rfl, rfl, rfl, rfl⟩

/-- C5: `number_of_generations()` answers 2 on `TwoGenerationCollectorPolicy` and on
`MarkSweepPolicy`, `ConcurrentMarkSweepPolicy` and `ASConcurrentMarkSweepPolicy`, in
every object state; the classes above them have no body to answer with. -/
theorem C5_number_of_generations_is_two (p : TwoGenerationCollectorPolicy) :
    PolicyClass.TwoGenerationCollectorPolicy.number_of_generations p = some 2 ∧
      PolicyClass.MarkSweepPolicy.number_of_generations p = some 2 ∧
      PolicyClass.ConcurrentMarkSweepPolicy.number_of_generations p = some 2 ∧
      PolicyClass.ASConcurrentMarkSweepPolicy.number_of_generations p = some 2 ∧
      (∀ c : PolicyClass,
        c.number_of_generations p = if c.derives_two_generation then some 2 else none) := by
  refine ⟨rfl, rfl, rfl, rfl, ?_⟩
  intro c
  cases c <;> rfl

/-- C6: `barrier_set_name()` answers `BarrierSet::CardTableModRef` on
`TwoGenerationCollectorPolicy`, `MarkSweepPolicy`, `ConcurrentMarkSweepPolicy` and
`ASConcurrentMarkSweepPolicy` in every object state, and no class of these files
answers any other kind (in particular not a G1/SATB kind, `Other` or `Uninit`). -/
theorem C6_barrier_set_name_is_card_table (p : TwoGenerationCollectorPolicy) :
    PolicyClass.TwoGenerationCollectorPolicy.barrier_set_name p =
        some BarrierSet.Name.CardTableModRef ∧
      PolicyClass.MarkSweepPolicy.barrier_set_name p = some BarrierSet.Name.CardTableModRef ∧
      PolicyClass.ConcurrentMarkSweepPolicy.barrier_set_name p =
        some BarrierSet.Name.CardTableModRef ∧
      PolicyClass.ASConcurrentMarkSweepPolicy.barrier_set_name p =
        some BarrierSet.Name.CardTableModRef ∧
      (∀ c : PolicyClass,
        c.barrier_set_name p ≠ some BarrierSet.Name.G1SATBCT ∧
        c.barrier_set_name p ≠ some BarrierSet.Name.G1SATBCTLogging ∧
        c.barrier_set_name p ≠ some BarrierSet.Name.Other ∧
        c.barrier_set_name p ≠ some BarrierSet.Name.Uninit ∧
        c.barrier_set_name p ≠ some BarrierSet.Name.ModRef ∧
        c.barrier_set_name p ≠ some BarrierSet.Name.CardTableExtension) := by
  refine ⟨rfl, rfl, rfl, rfl, ?_⟩
  intro c
  cases c <;> simp [PolicyClass.barrier_set_name, PolicyClass.final_overrider,
    PolicyClass.lineage, PolicyClass.lineageFrom, PolicyClass.base,
    PolicyClass.defines_barrier_set_name]

/-- C7: leaving a scope that holds a `ClearedAllSoftRefs` built with
`clear_all_soft_refs = true` calls `cleared_all_soft_refs()` on the policy exactly
once, after the body and whatever exit the body took; built with
`clear_all_soft_refs = false` the destructor records no call and leaves the policy
state and the trace as the body left them. -/
theorem C7_cleared_all_soft_refs_scope {σ β : Type} (cleared_all_soft_refs : σ → σ)
    (body : Run σ → β × Run σ) (r : Run σ) :
    (ClearedAllSoftRefs.scope cleared_all_soft_refs true body r).1 = (body r).1 ∧
      (ClearedAllSoftRefs.scope cleared_all_soft_refs true body r).2.trace =
        (body r).2.trace ++
          [Event.call Hook.cleared_all_soft_refs, Event.ret Hook.cleared_all_soft_refs] ∧
      (ClearedAllSoftRefs.scope cleared_all_soft_refs true body r).2.state =
        cleared_all_soft_refs (body r).2.state ∧
      (ClearedAllSoftRefs.scope cleared_all_soft_refs true body r).2.trace.count
        (Event.call Hook.cleared_all_soft_refs) =
          (body r).2.trace.count (Event.call Hook.cleared_all_soft_refs) + 1 ∧
      ClearedAllSoftRefs.scope cleared_all_soft_refs false body r = body r ∧
      ClearedAllSoftRefs.destructor cleared_all_soft_refs
        { _clear_all_soft_refs := false } r = r := by
  refine ⟨rfl, rfl, rfl, ?_, rfl, rfl⟩
  simp [ClearedAllSoftRefs.scope, ClearedAllSoftRefs.destructor, invoke, List.count_cons]

/-! ### Rounding lemmas -/

/-- Rounding down yields a multiple of the alignment. -/
theorem align_size_down_mod (size alignment : Nat) :
    align_size_down size alignment % alignment = 0 := by
  simp [align_size_down]

/-- Rounding down never exceeds the size. -/
theorem align_size_down_le (size alignment : Nat) : align_size_down size alignment ≤ size :=
  Nat.div_mul_le_self size alignment

/-- Rounding up yields a multiple of the alignment. -/
theorem align_size_up_mod (size alignment : Nat) :
    align_size_up size alignment % alignment = 0 :=
  align_size_down_mod _ _

/-- With a zero alignment the only multiple is zero. -/
theorem align_size_up_zero (size : Nat) : align_size_up size 0 = 0 := by
  simp [align_size_up, align_size_down]

/-- Rounding up to a positive alignment never falls below the size. -/
theorem le_align_size_up (size alignment : Nat) (h : 0 < alignment) :
    size ≤ align_size_up size alignment := by
  have h1 := @Nat.lt_div_mul_add (size + alignment - 1) alignment h
  unfold align_size_up align_size_down
  omega

/-- Rounding down gives the greatest multiple that is not above the size. -/
theorem le_align_size_down_of_multiple (size alignment m : Nat) (hm : m % alignment = 0)
    (hle : m ≤ size) : m ≤ align_size_down size alignment := by
  obtain ⟨k, rfl⟩ := Nat.dvd_of_mod_eq_zero hm
  rcases Nat.eq_zero_or_pos alignment with h0 | hpos
  · subst h0; simp
  · unfold align_size_down
    have hk : k ≤ size / alignment := by
      rw [Nat.le_div_iff_mul_le hpos]
      simpa [Nat.mul_comm] using hle
    calc alignment * k = k * alignment := Nat.mul_comm _ _
      _ ≤ size / alignment * alignment := Nat.mul_le_mul_right _ hk

/-- Rounding up gives the least multiple that is not below the size. -/
theorem align_size_up_le_of_multiple (size alignment m : Nat) (hm : m % alignment = 0)
    (hle : size ≤ m) : align_size_up size alignment ≤ m := by
  obtain ⟨k, rfl⟩ := Nat.dvd_of_mod_eq_zero hm
  rcases Nat.eq_zero_or_pos alignment with h0 | hpos
  · subst h0; simp [align_size_up_zero]
  · unfold align_size_up align_size_down
    have hk : (size + alignment - 1) / alignment < k + 1 := by
      rw [Nat.div_lt_iff_lt_mul hpos]
      have : (k + 1) * alignment = alignment * k + alignment := by ring
      omega
    calc (size + alignment - 1) / alignment * alignment
        ≤ k * alignment := Nat.mul_le_mul_right _ (Nat.lt_succ_iff.mp hk)
      _ = alignment * k := Nat.mul_comm _ _

/-- The larger of two multiples is a multiple. -/
theorem mod_max_eq_zero (a b alignment : Nat) (ha : a % alignment = 0)
    (hb : b % alignment = 0) : max a b % alignment = 0 := by
  rcases Nat.le_total a b with h | h
  · rw [Nat.max_eq_right h]; exact hb
  · rw [Nat.max_eq_left h]; exact ha

/-- The smaller of two multiples is a multiple. -/
theorem mod_min_eq_zero (a b alignment : Nat) (ha : a % alignment = 0)
    (hb : b % alignment = 0) : min a b % alignment = 0 := by
  rcases Nat.le_total a b with h | h
  · rw [Nat.min_eq_left h]; exact ha
  · rw [Nat.min_eq_right h]; exact hb

/-! ### The rebalancing step finds a feasible pair whenever one exists -/

/-- If any feasible pair exists, the pair proposed by `rebalanced_gen0` is feasible. -/
theorem rebalanced_gen0_feasible (p : TwoGenerationCollectorPolicy)
    (gen0_size gen1_size heap_size a b : Nat) (hf : p.feasible heap_size a b) :
    p.feasible heap_size (p.rebalanced_gen0 gen0_size gen1_size heap_size)
      (heap_size - p.rebalanced_gen0 gen0_size gen1_size heap_size) := by
  obtain ⟨hsum, ⟨ha1, ha2⟩, ⟨hb1, hb2⟩, hma, hmb⟩ := hf
  have hlo : align_size_up (max p._min_gen0_size (heap_size - p._max_gen1_size))
      p._gen_alignment ≤ a :=
    align_size_up_le_of_multiple _ _ _ hma (by omega)
  have hhi : a ≤ align_size_down (min p._max_gen0_size (heap_size - p._min_gen1_size))
      p._gen_alignment :=
    le_align_size_down_of_multiple _ _ _ hma (by omega)
  have hhi2 := align_size_down_le (min p._max_gen0_size (heap_size - p._min_gen1_size))
    p._gen_alignment
  have hmod : p.rebalanced_gen0 gen0_size gen1_size heap_size % p._gen_alignment = 0 :=
    mod_max_eq_zero _ _ _ (align_size_up_mod _ _)
      (mod_min_eq_zero _ _ _ (align_size_down_mod _ _) (align_size_down_mod _ _))
  have hheap : p._gen_alignment ∣ heap_size := by
    rw [← hsum]
    exact Nat.dvd_add (Nat.dvd_of_mod_eq_zero hma) (Nat.dvd_of_mod_eq_zero hmb)
  have hrest : (heap_size - p.rebalanced_gen0 gen0_size gen1_size heap_size)
      % p._gen_alignment = 0 :=
    Nat.mod_eq_zero_of_dvd (Nat.dvd_sub' hheap (Nat.dvd_of_mod_eq_zero hmod))
  have hge : align_size_up (max p._min_gen0_size (heap_size - p._max_gen1_size))
      p._gen_alignment ≤ p.rebalanced_gen0 gen0_size gen1_size heap_size :=
    Nat.le_max_left _ _
  have hle : p.rebalanced_gen0 gen0_size gen1_size heap_size ≤
      align_size_down (min p._max_gen0_size (heap_size - p._min_gen1_size))
        p._gen_alignment :=
    Nat.max_le.mpr ⟨Nat.le_trans hlo hhi, Nat.min_le_left _ _⟩
  have hlow : max p._min_gen0_size (heap_size - p._max_gen1_size) ≤
      p.rebalanced_gen0 gen0_size gen1_size heap_size := by
    rcases Nat.eq_zero_or_pos p._gen_alignment with h0 | hpos
    · rw [h0] at hma hmb
      simp only [Nat.mod_zero] at hma hmb
      omega
    · exact Nat.le_trans (le_align_size_up _ _ hpos) hge
  refine ⟨?_, ⟨?_, ?_⟩, ⟨?_, ?_⟩, hmod, hrest⟩ <;> omega

/-- C8: for sizes that do not already sum to the heap size, whenever some feasible
pair exists (summing to the heap size, each size within its own bound and aligned)
`adjust_gen0_sizes` leaves a pair that sums exactly to the heap size with each size
within its own bound; when no feasible pair exists it returns false and leaves both
sizes as they were; and in either case a size that was within its bound stays
within it. -/
theorem C8_adjust_gen0_sizes_sum_and_bounds (p : TwoGenerationCollectorPolicy)
    (gen0_size gen1_size heap_size : Nat) (hne : gen0_size + gen1_size ≠ heap_size) :
    ((∃ a b, p.feasible heap_size a b) →
        (p.adjust_gen0_sizes gen0_size gen1_size heap_size).result = true ∧
        (p.adjust_gen0_sizes gen0_size gen1_size heap_size).gen0_size +
          (p.adjust_gen0_sizes gen0_size gen1_size heap_size).gen1_size = heap_size ∧
        p.gen0_within_bounds (p.adjust_gen0_sizes gen0_size gen1_size heap_size).gen0_size ∧
        p.gen1_within_bounds (p.adjust_gen0_sizes gen0_size gen1_size heap_size).gen1_size) ∧
      ((¬ ∃ a b, p.feasible heap_size a b) →
        p.adjust_gen0_sizes gen0_size gen1_size heap_size =
          { result := false, gen0_size := gen0_size, gen1_size := gen1_size }) ∧
      (p.gen0_within_bounds gen0_size →
        p.gen0_within_bounds (p.adjust_gen0_sizes gen0_size gen1_size heap_size).gen0_size) ∧
      (p.gen1_within_bounds gen1_size →
        p.gen1_within_bounds (p.adjust_gen0_sizes gen0_size gen1_size heap_size).gen1_size) := by
  by_cases hc : p.feasible heap_size (p.rebalanced_gen0 gen0_size gen1_size heap_size)
      (heap_size - p.rebalanced_gen0 gen0_size gen1_size heap_size)
  · have hout : p.adjust_gen0_sizes gen0_size gen1_size heap_size =
        { result := true,
          gen0_size := p.rebalanced_gen0 gen0_size gen1_size heap_size,
          gen1_size := heap_size - p.rebalanced_gen0 gen0_size gen1_size heap_size } := by
      simp [TwoGenerationCollectorPolicy.adjust_gen0_sizes, hne, hc]
    rw [hout]
    have hc2 := hc
    obtain ⟨h1, h2, h3, -, -⟩ := hc2
    exact ⟨fun _ => ⟨rfl, h1, h2, h3⟩, fun hno => absurd ⟨_, _, hc⟩ hno, fun _ => h2,
      fun _ => h3⟩
  · have hout : p.adjust_gen0_sizes gen0_size gen1_size heap_size =
        { result := false, gen0_size := gen0_size, gen1_size := gen1_size } := by
      simp [TwoGenerationCollectorPolicy.adjust_gen0_sizes, hne, hc]
    rw [hout]
    refine ⟨fun hex => ?_, fun _ => rfl, fun h => h, fun h => h⟩
    obtain ⟨a, b, hf⟩ := hex
    exact absurd (rebalanced_gen0_feasible p gen0_size gen1_size heap_size a b hf) hc

/-- C8 at a concrete input: young 85 MiB and old 170 MiB proposed for a 256 MiB heap
(the pair 85 MiB and 171 MiB is feasible) come out summing to 256 MiB within bounds. -/
theorem C8_adjust_gen0_sizes_witness :
    85 * MiB + 170 * MiB ≠ 256 * MiB ∧
      (example_policy.adjust_gen0_sizes (85 * MiB) (170 * MiB) (256 * MiB)).result = true ∧
      (example_policy.adjust_gen0_sizes (85 * MiB) (170 * MiB) (256 * MiB)).gen0_size +
        (example_policy.adjust_gen0_sizes (85 * MiB) (170 * MiB) (256 * MiB)).gen1_size =
          256 * MiB ∧
      example_policy.gen0_within_bounds
        (example_policy.adjust_gen0_sizes (85 * MiB) (170 * MiB) (256 * MiB)).gen0_size ∧
      example_policy.gen1_within_bounds
        (example_policy.adjust_gen0_sizes (85 * MiB) (170 * MiB) (256 * MiB)).gen1_size :=
  ⟨by decide,
    (C8_adjust_gen0_sizes_sum_and_bounds example_policy (85 * MiB) (170 * MiB) (256 * MiB)
      (by decide)).1 ⟨85 * MiB, 171 * MiB, by decide⟩⟩

/-- C9: `scale_by_NewRatio_aligned(base_size)` is `base_size / (NewRatio + 1)` rounded
down to a multiple of the generation alignment (a multiple, not above the quotient,
and less than one alignment below it), it never exceeds `base_size`, and 256 MiB with
`NewRatio = 2` and a 1 MiB alignment gives 85 MiB. -/
theorem C9_scale_by_NewRatio_aligned_rounds_down (p : GenCollectorPolicy)
    (NewRatio base_size : Nat) :
    p.scale_by_NewRatio_aligned NewRatio base_size % p._gen_alignment = 0 ∧
      p.scale_by_NewRatio_aligned NewRatio base_size ≤ base_size / (NewRatio + 1) ∧
      (p._gen_alignment = 0 ∨
        base_size / (NewRatio + 1) <
          p.scale_by_NewRatio_aligned NewRatio base_size + p._gen_alignment) ∧
      p.scale_by_NewRatio_aligned NewRatio base_size ≤ base_size ∧
      GenCollectorPolicy.scale_by_NewRatio_aligned
        { p with _gen_alignment := MiB } 2 (256 * MiB) = 85 * MiB := by
  refine ⟨align_size_down_mod _ _, align_size_down_le _ _, ?_, ?_, ?_⟩
  · rcases Nat.eq_zero_or_pos p._gen_alignment with h0 | hpos
    · exact Or.inl h0
    · exact Or.inr (Nat.lt_div_mul_add hpos)
  · exact Nat.le_trans (align_size_down_le _ _) (Nat.div_le_self _ _)
  · show align_size_down (256 * MiB / (2 + 1)) MiB = 85 * MiB
    decide

/-! ### Alignments -/

/-- An alignment is not above a multiple of itself obtained by rounding up from it. -/
theorem le_align_size_up_max (a x : Nat) : a ≤ align_size_up (max a x) a := by
  rcases Nat.eq_zero_or_pos a with h0 | hpos
  · omega
  · exact Nat.le_trans (Nat.le_max_left a x) (le_align_size_up _ _ hpos)

/-- The alignments set by `initialize_alignments` form the divisibility chain. -/
theorem initialize_alignments_consistent (cfg : AlignmentInputs)
    (p : TwoGenerationCollectorPolicy) :
    (TwoGenerationCollectorPolicy.initialize_alignments cfg p).alignments_consistent := by
  unfold TwoGenerationCollectorPolicy.alignments_consistent
    TwoGenerationCollectorPolicy.initialize_alignments
  refine ⟨align_size_up_mod _ _, ?_, le_align_size_up_max _ _, ?_⟩
  · cases cfg.large_page_alignment with
    | none => exact Nat.mod_self _
    | some large_page => exact align_size_up_mod _ _
  · cases cfg.large_page_alignment with
    | none => exact Nat.le_refl _
    | some large_page => exact le_align_size_up_max _ _

/-- C12: at a plain `ConcurrentMarkSweepPolicy` the virtual `kind()` resolves to the
body inherited from `TwoGenerationCollectorPolicy` and answers
`TwoGenerationCollectorPolicyKind`, although `is_concurrent_mark_sweep_policy()` is
true there; `ASConcurrentMarkSweepPolicy` answers `ASConcurrentMarkSweepPolicyKind`,
`MarkSweepPolicy` answers `TwoGenerationCollectorPolicyKind`, and no class of these
files answers `ConcurrentMarkSweepPolicyKind`. -/
theorem C12_kind_at_concurrent_mark_sweep_policy (p : TwoGenerationCollectorPolicy)
    (self : Nat) :
    PolicyClass.ConcurrentMarkSweepPolicy.kind p =
        some CollectorPolicy.Name.TwoGenerationCollectorPolicyKind ∧
      PolicyClass.ConcurrentMarkSweepPolicy.is_concurrent_mark_sweep_policy true self = true ∧
      PolicyClass.ASConcurrentMarkSweepPolicy.kind p =
        some CollectorPolicy.Name.ASConcurrentMarkSweepPolicyKind ∧
      PolicyClass.ASConcurrentMarkSweepPolicy.is_concurrent_mark_sweep_policy true self = true ∧
      PolicyClass.MarkSweepPolicy.kind p =
        some CollectorPolicy.Name.TwoGenerationCollectorPolicyKind ∧
      PolicyClass.MarkSweepPolicy.is_concurrent_mark_sweep_policy true self = false ∧
      (∀ c : PolicyClass,
        c.kind p ≠ some CollectorPolicy.Name.ConcurrentMarkSweepPolicyKind) := by
  refine ⟨rfl, rfl, rfl, rfl, rfl, rfl, ?_⟩
  intro c
  cases c <;> simp [PolicyClass.kind, PolicyClass.final_overrider, PolicyClass.lineage,
    PolicyClass.lineageFrom, PolicyClass.base, PolicyClass.defines_kind]

/-- C13: `has_soft_ended_eden()` answers false on `CollectorPolicy`,
`GenCollectorPolicy`, `TwoGenerationCollectorPolicy` and `MarkSweepPolicy`, which
inherit the default unchanged, whatever the overrider of `ConcurrentMarkSweepPolicy`
does; `ConcurrentMarkSweepPolicy` and `ASConcurrentMarkSweepPolicy` answer with that
overrider, so they are the only classes that can answer true, and they do when the
overrider does. -/
theorem C13_has_soft_ended_eden_default_false
    (cms_body : TwoGenerationCollectorPolicy → Bool) (p : TwoGenerationCollectorPolicy) :
    PolicyClass.CollectorPolicy.has_soft_ended_eden cms_body p = some false ∧
      PolicyClass.GenCollectorPolicy.has_soft_ended_eden cms_body p = some false ∧
      PolicyClass.TwoGenerationCollectorPolicy.has_soft_ended_eden cms_body p = some false ∧
      PolicyClass.MarkSweepPolicy.has_soft_ended_eden cms_body p = some false ∧
      PolicyClass.ConcurrentMarkSweepPolicy.has_soft_ended_eden cms_body p =
        some (cms_body p) ∧
      PolicyClass.ASConcurrentMarkSweepPolicy.has_soft_ended_eden cms_body p =
        some (cms_body p) ∧
      (∀ c : PolicyClass, c.has_soft_ended_eden cms_body p = some true →
        c = PolicyClass.ConcurrentMarkSweepPolicy ∨
          c = PolicyClass.ASConcurrentMarkSweepPolicy) ∧
      (∀ c : PolicyClass,
        c.has_soft_ended_eden cms_body p =
          if c.derives_concurrent_mark_sweep then some (cms_body p) else some false) ∧
      PolicyClass.ConcurrentMarkSweepPolicy.has_soft_ended_eden (fun _ => true) p =
        some true ∧
      PolicyClass.ASConcurrentMarkSweepPolicy.has_soft_ended_eden (fun _ => true) p =
        some true := by
  refine ⟨rfl, rfl, rfl, rfl, rfl, rfl, ?_, ?_, rfl, rfl⟩
  · intro c h
    cases c <;> first
      | exact Or.inl rfl
      | exact Or.inr rfl
      | exact (Bool.false_ne_true (Option.some.inj (h : some false = some true))).elim
  · intro c
    cases c <;> rfl

/-- C14: for every class that exists in the build and every object of it, each
`is_X_policy()` is true exactly when `as_X_policy()` returns the object rather than
`NULL`; mark-sweep and concurrent-mark-sweep exclude each other; each of them implies
two-generation, which implies generation; `is_g1_policy()` is false; and
`MarkSweepPolicy` is generation, two-generation and mark-sweep while
`ConcurrentMarkSweepPolicy` and `ASConcurrentMarkSweepPolicy` are generation,
two-generation and concurrent-mark-sweep. -/
theorem C14_identification_consistent (INCLUDE_ALL_GCS : Bool) (c : PolicyClass) (self : Nat)
    (h : c.declared INCLUDE_ALL_GCS = true) :
    (c.is_generation_policy self =
        decide (c.as_generation_policy self = some (some self)) ∧
      c.is_two_generation_policy self =
        decide (c.as_two_generation_policy self = some (some self)) ∧
      c.is_mark_sweep_policy self =
        decide (c.as_mark_sweep_policy self = some (some self)) ∧
      c.is_concurrent_mark_sweep_policy INCLUDE_ALL_GCS self =
        decide (c.as_concurrent_mark_sweep_policy INCLUDE_ALL_GCS self = some (some self)) ∧
      c.is_g1_policy INCLUDE_ALL_GCS self =
        decide (c.as_g1_policy INCLUDE_ALL_GCS self = some (some self))) ∧
      ((c.is_mark_sweep_policy self &&
          c.is_concurrent_mark_sweep_policy INCLUDE_ALL_GCS self) = false ∧
        (c.is_mark_sweep_policy self = true → c.is_two_generation_policy self = true) ∧
        (c.is_concurrent_mark_sweep_policy INCLUDE_ALL_GCS self = true →
          c.is_two_generation_policy self = true) ∧
        (c.is_two_generation_policy self = true → c.is_generation_policy self = true) ∧
        c.is_g1_policy INCLUDE_ALL_GCS self = false) ∧
      (PolicyClass.MarkSweepPolicy.is_generation_policy self = true ∧
        PolicyClass.MarkSweepPolicy.is_two_generation_policy self = true ∧
        PolicyClass.MarkSweepPolicy.is_mark_sweep_policy self = true ∧
        PolicyClass.MarkSweepPolicy.is_concurrent_mark_sweep_policy INCLUDE_ALL_GCS self =
          false) ∧
      (PolicyClass.ConcurrentMarkSweepPolicy.is_generation_policy self = true ∧
        PolicyClass.ConcurrentMarkSweepPolicy.is_two_generation_policy self = true ∧
        PolicyClass.ConcurrentMarkSweepPolicy.is_concurrent_mark_sweep_policy true self =
          true ∧
        PolicyClass.ConcurrentMarkSweepPolicy.is_mark_sweep_policy self = false) ∧
      (PolicyClass.ASConcurrentMarkSweepPolicy.is_generation_policy self = true ∧
        PolicyClass.ASConcurrentMarkSweepPolicy.is_two_generation_policy self = true ∧
        PolicyClass.ASConcurrentMarkSweepPolicy.is_concurrent_mark_sweep_policy true self =
          true ∧
        PolicyClass.ASConcurrentMarkSweepPolicy.is_mark_sweep_policy self = false) := by
  refine ⟨?_, ?_, ⟨rfl, rfl, rfl, ?_⟩, ⟨rfl, rfl, rfl, rfl⟩, ⟨rfl, rfl, rfl, rfl⟩⟩
  · cases INCLUDE_ALL_GCS <;> cases c <;>
      first
      | exact absurd h (by decide)
      | simp [PolicyClass.is_generation_policy, PolicyClass.is_two_generation_policy,
          PolicyClass.is_mark_sweep_policy, PolicyClass.is_concurrent_mark_sweep_policy,
          PolicyClass.is_g1_policy, PolicyClass.as_generation_policy,
          PolicyClass.as_two_generation_policy, PolicyClass.as_mark_sweep_policy,
          PolicyClass.as_concurrent_mark_sweep_policy, PolicyClass.as_g1_policy,
          PolicyClass.final_overrider, PolicyClass.lineage, PolicyClass.lineageFrom,
          PolicyClass.base, PolicyClass.defines_as_generation_policy,
          PolicyClass.defines_as_two_generation_policy,
          PolicyClass.defines_as_mark_sweep_policy,
          PolicyClass.defines_as_concurrent_mark_sweep_policy,
          PolicyClass.defines_as_g1_policy, not_NULL]
  · cases INCLUDE_ALL_GCS <;> cases c <;>
      first
      | exact absurd h (by decide)
      | exact ⟨rfl, fun h1 => by first | rfl | exact (Bool.false_ne_true h1).elim,
          fun h1 => by first | rfl | exact (Bool.false_ne_true h1).elim,
          fun h1 => by first | rfl | exact (Bool.false_ne_true h1).elim, rfl⟩
  · cases INCLUDE_ALL_GCS <;> rfl

/-- C14 at a concrete object: a `ConcurrentMarkSweepPolicy` at address 4096 in a build
with all collectors answers generation, two-generation and concurrent-mark-sweep,
and neither mark-sweep nor G1. -/
theorem C14_identification_consistent_witness :
    PolicyClass.ConcurrentMarkSweepPolicy.declared true = true ∧
      PolicyClass.ConcurrentMarkSweepPolicy.is_concurrent_mark_sweep_policy true 4096 =
        decide (PolicyClass.ConcurrentMarkSweepPolicy.as_concurrent_mark_sweep_policy
          true 4096 = some (some 4096)) ∧
      PolicyClass.ConcurrentMarkSweepPolicy.is_g1_policy true 4096 = false :=
  ⟨rfl,
    (C14_identification_consistent true PolicyClass.ConcurrentMarkSweepPolicy 4096
      rfl).1.2.2.2.1,
    (C14_identification_consistent true PolicyClass.ConcurrentMarkSweepPolicy 4096
      rfl).2.1.2.2.2.2⟩

/-! ### `GCCause` -/

/-- C15: `is_user_requested_gc(c)` is true exactly for `_java_lang_system_gc` and
`_jvmti_force_gc`; `is_serviceability_requested_gc(c)` is true exactly for
`_jvmti_force_gc`, `_heap_inspection` and `_heap_dump`; both hold exactly for
`_jvmti_force_gc`; neither holds for `_allocation_failure`, `_no_gc` or a
collector-specific cause. -/
theorem C15_gc_cause_predicates (c : GCCause.Cause) :
    (GCCause.is_user_requested_gc c = true ↔
        c = GCCause.Cause._java_lang_system_gc ∨ c = GCCause.Cause._jvmti_force_gc) ∧
      (GCCause.is_serviceability_requested_gc c = true ↔
        c = GCCause.Cause._jvmti_force_gc ∨ c = GCCause.Cause._heap_inspection ∨
          c = GCCause.Cause._heap_dump) ∧
      ((GCCause.is_user_requested_gc c = true ∧
          GCCause.is_serviceability_requested_gc c = true) ↔
        c = GCCause.Cause._jvmti_force_gc) ∧
      GCCause.collector_causes.all
        (fun d => !GCCause.is_user_requested_gc d &&
          !GCCause.is_serviceability_requested_gc d) = true := by
  refine ⟨?_, ?_, ?_, by decide⟩ <;> cases c <;> decide

/-! ### `GCCauseString` -/

/-- A C string holds no NUL. -/
theorem c_str_ne_zero (memory : List Nat) : ∀ b ∈ c_str memory, (b != 0) = true := by
  intro b hb
  unfold c_str at hb
  exact List.mem_takeWhile_imp (p := fun b => b != 0) hb

/-- Reading back a text without NUL that is followed by a NUL gives the text. -/
theorem c_str_append_zero (text rest : List Nat) (h : ∀ b ∈ text, (b != 0) = true) :
    c_str (text ++ 0 :: rest) = text := by
  unfold c_str
  rw [List.takeWhile_append_of_pos h]
  simp

/-- The text formatted by the constructor holds no NUL. -/
theorem constructor_text_ne_zero (PrintGCCause : Bool) (to_string : GCCause.Cause → List Nat)
    (prefix_str : List Nat) (cause : GCCause.Cause) :
    ∀ b ∈ GCCauseString.constructor_text PrintGCCause to_string prefix_str cause,
      (b != 0) = true := by
  intro b hb
  unfold GCCauseString.constructor_text at hb
  cases PrintGCCause
  · simp only [Bool.false_eq_true, if_false, List.mem_append, List.mem_singleton] at hb
    rcases hb with hb | hb
    · exact c_str_ne_zero _ b hb
    · subst hb; decide
  · simp only [if_true, List.mem_append, List.mem_cons, List.mem_singleton,
      List.not_mem_nil, or_false] at hb
    rcases hb with ((hb | hb | hb) | hb) | hb | hb
    · exact c_str_ne_zero _ b hb
    · subst hb; decide
    · subst hb; decide
    · exact c_str_ne_zero _ b hb
    · subst hb; decide
    · subst hb; decide

/-- Storing at the start of an array. -/
theorem store_zero (buffer bytes : List Nat) :
    store buffer 0 bytes = bytes ++ buffer.drop bytes.length := by
  simp [store]

/-- Storing right behind a text that starts the array keeps the text. -/
theorem store_after (text rest bytes : List Nat) :
    store (text ++ rest) text.length bytes =
      text ++ (bytes ++ (text ++ rest).drop (text.length + bytes.length)) := by
  simp [store]

/-- A text that fits is stored whole and its length is returned. -/
theorem jio_snprintf_fits (buffer : List Nat) (offset : Nat) (count : Int) (text : List Nat)
    (h : (text.length : Int) < count) :
    jio_snprintf buffer offset count text =
      ((text.length : Int), store buffer offset (text ++ [0])) := by
  have h0 : ¬ count ≤ 0 := by omega
  simp [jio_snprintf, h0, h]

/-- C16: when the constructor's text and the appended string together are shorter
than the 128-byte array, then after `GCCauseString(prefix, cause)` and `append(s)` the
array read as a C string is the constructor's text (`"prefix (cause) "` under
`PrintGCCause`, else `"prefix "`) immediately followed by `s`, `_position` is the
length of that whole text, `0 <= _position <= 128`, and the conditions of both
assertions are true. -/
theorem C16_append_follows_constructor_text (PrintGCCause : Bool)
    (to_string : GCCause.Cause → List Nat) (uninitialized prefix_str : List Nat)
    (cause : GCCause.Cause) (s : List Nat)
    (h : (GCCauseString.constructor_text PrintGCCause to_string prefix_str cause).length +
      (c_str s).length < 128) :
    (GCCauseString.construct PrintGCCause to_string uninitialized prefix_str
        cause).constructor_assert = true ∧
      (GCCauseString.construct PrintGCCause to_string uninitialized prefix_str
        cause).to_chars =
          GCCauseString.constructor_text PrintGCCause to_string prefix_str cause ∧
      ((GCCauseString.construct PrintGCCause to_string uninitialized prefix_str
        cause).append s).map GCCauseString.to_chars =
          some (GCCauseString.constructor_text PrintGCCause to_string prefix_str cause ++
            c_str s) ∧
      ((GCCauseString.construct PrintGCCause to_string uninitialized prefix_str
        cause).append s).map (fun g => g._position) =
          some (((GCCauseString.constructor_text PrintGCCause to_string prefix_str cause ++
            c_str s).length : Nat) : Int) ∧
      ((GCCauseString.construct PrintGCCause to_string uninitialized prefix_str
        cause).append s).map (fun g => decide (0 ≤ g._position ∧ g._position ≤ 128)) =
          some true ∧
      (GCCauseString.construct PrintGCCause to_string uninitialized prefix_str
        cause).append_assert s = true ∧
      GCCauseString.constructor_text true to_string prefix_str cause =
        c_str prefix_str ++ [32, 40] ++ c_str (to_string cause) ++ [41, 32] ∧
      GCCauseString.constructor_text false to_string prefix_str cause =
        c_str prefix_str ++ [32] := by
  have hnz := constructor_text_ne_zero PrintGCCause to_string prefix_str cause
  generalize ht : GCCauseString.constructor_text PrintGCCause to_string prefix_str cause = t
    at h hnz ⊢
  have hcons : GCCauseString.construct PrintGCCause to_string uninitialized prefix_str cause =
      { _buffer := t ++ 0 :: uninitialized.drop (t ++ [0]).length,
        _position := (t.length : Int) } := by
    unfold GCCauseString.construct
    rw [ht, jio_snprintf_fits _ _ _ _ (by simp only [GCCauseString._length]; omega)]
    simp [store_zero]
  have happ : GCCauseString.append_call
      { _buffer := t ++ 0 :: uninitialized.drop (t ++ [0]).length,
        _position := (t.length : Int) } s =
      (((c_str s).length : Int),
        t ++ (c_str s ++ [0] ++ (t ++ 0 :: uninitialized.drop (t ++ [0]).length).drop
          (t.length + (c_str s ++ [0]).length))) := by
    unfold GCCauseString.append_call
    rw [jio_snprintf_fits _ _ _ _ (by simp only [GCCauseString._length]; omega)]
    simp only [Int.toNat_ofNat, store_after]
  have hpos : ¬ ((t.length : Int) < 0) := by omega
  rw [hcons]
  refine ⟨?_, ?_, ?_, ?_, ?_, ?_, rfl, rfl⟩
  · simp only [GCCauseString.constructor_assert, GCCauseString._length, decide_eq_true_eq]
    omega
  · exact c_str_append_zero t _ hnz
  · simp only [GCCauseString.append, hpos, if_false, happ, Option.map_some',
      GCCauseString.to_chars, Option.some.injEq]
    have hnz2 : ∀ b ∈ t ++ c_str s, (b != 0) = true := by
      intro b hb
      rcases List.mem_append.mp hb with hb | hb
      · exact hnz b hb
      · exact c_str_ne_zero s b hb
    have := c_str_append_zero (t ++ c_str s)
      ((t ++ 0 :: uninitialized.drop (t ++ [0]).length).drop
        (t.length + (c_str s ++ [0]).length)) hnz2
    simpa using this
  · simp only [GCCauseString.append, hpos, if_false, happ, Option.map_some',
      Option.some.injEq]
    rw [List.length_append]
    omega
  · simp only [GCCauseString.append, hpos, if_false, happ, Option.map_some',
      Option.some.injEq, decide_eq_true_eq]
    omega
  · unfold GCCauseString.append_assert
    rw [happ]
    simp only [GCCauseString._length, decide_eq_true_eq]
    omega

/-- C16 at a concrete input: the prefix `GC`, the cause `_allocation_failure` printed
as `Allocation Failure`, and the appended string `--` give, under `PrintGCCause`,
the text of the constructor followed by `--`. -/
theorem C16_append_follows_constructor_text_witness :
    (GCCauseString.constructor_text true example_to_string [71, 67, 0]
        GCCause.Cause._allocation_failure).length + (c_str [45, 45, 0, 99]).length < 128 ∧
      ((GCCauseString.construct true example_to_string example_uninitialized [71, 67, 0]
        GCCause.Cause._allocation_failure).append [45, 45, 0, 99]).map
          GCCauseString.to_chars =
        some (GCCauseString.constructor_text true example_to_string [71, 67, 0]
          GCCause.Cause._allocation_failure ++ c_str [45, 45, 0, 99]) ∧
      GCCauseString.constructor_text true example_to_string [71, 67, 0]
          GCCause.Cause._allocation_failure ++ c_str [45, 45, 0, 99] =
        [71, 67, 32, 40, 65, 108, 108, 111, 99, 97, 116, 105, 111, 110, 32, 70, 97, 105,
          108, 117, 114, 101, 41, 32, 45, 45] :=
  ⟨by decide,
    (C16_append_follows_constructor_text true example_to_string example_uninitialized
      [71, 67, 0] GCCause.Cause._allocation_failure [45, 45, 0, 99] (by decide)).2.2.1,
    by decide⟩

/-! ### Sizes after `initialize_all` -/

/-- Rounding up is monotone. -/
theorem align_size_up_mono (a b alignment : Nat) (h : a ≤ b) :
    align_size_up a alignment ≤ align_size_up b alignment := by
  unfold align_size_up align_size_down
  exact Nat.mul_le_mul_right _ (Nat.div_le_div_right (by omega))

/-- A multiple of the heap alignment is a multiple of the generation alignment when
the heap alignment is one. -/
theorem mod_eq_zero_of_chain (size heap_alignment gen_alignment : Nat)
    (h1 : size % heap_alignment = 0) (h2 : heap_alignment % gen_alignment = 0) :
    size % gen_alignment = 0 :=
  Nat.mod_eq_zero_of_dvd
    (Nat.dvd_trans (Nat.dvd_of_mod_eq_zero h2) (Nat.dvd_of_mod_eq_zero h1))

/-- The scaled size grows with the heap size. -/
theorem scale_by_NewRatio_aligned_mono (p : GenCollectorPolicy) (NewRatio h1 h2 : Nat)
    (h : h1 ≤ h2) :
    p.scale_by_NewRatio_aligned NewRatio h1 ≤ p.scale_by_NewRatio_aligned NewRatio h2 := by
  unfold GenCollectorPolicy.scale_by_NewRatio_aligned align_size_down
  exact Nat.mul_le_mul_right _ (Nat.div_le_div_right (Nat.div_le_div_right h))

/-- The scaled size never grows by more than the heap size does, for heap sizes that
are multiples of the generation alignment. -/
theorem scale_by_NewRatio_aligned_step (p : GenCollectorPolicy) (NewRatio h1 h2 : Nat)
    (h : h1 ≤ h2) (hm1 : h1 % p._gen_alignment = 0) (hm2 : h2 % p._gen_alignment = 0) :
    p.scale_by_NewRatio_aligned NewRatio h2 + h1 ≤
      p.scale_by_NewRatio_aligned NewRatio h1 + h2 := by
  unfold GenCollectorPolicy.scale_by_NewRatio_aligned align_size_down
  rcases Nat.eq_zero_or_pos p._gen_alignment with h0 | hpos
  · rw [h0]; simpa using h
  · obtain ⟨k, hk⟩ : p._gen_alignment ∣ h2 - h1 :=
      Nat.dvd_sub' (Nat.dvd_of_mod_eq_zero hm2) (Nat.dvd_of_mod_eq_zero hm1)
    have hq : h2 / (NewRatio + 1) ≤ h1 / (NewRatio + 1) + k * p._gen_alignment := by
      have e : h1 / (NewRatio + 1) + k * p._gen_alignment =
          (h1 + (k * p._gen_alignment) * (NewRatio + 1)) / (NewRatio + 1) := by
        rw [Nat.add_mul_div_right _ _ (Nat.succ_pos _)]
      rw [e]
      apply Nat.div_le_div_right
      have : k * p._gen_alignment ≤ k * p._gen_alignment * (NewRatio + 1) :=
        Nat.le_mul_of_pos_right _ (Nat.succ_pos _)
      have : h2 - h1 = k * p._gen_alignment := by rw [hk, Nat.mul_comm]
      omega
    have hs : h2 / (NewRatio + 1) / p._gen_alignment ≤
        h1 / (NewRatio + 1) / p._gen_alignment + k := by
      calc h2 / (NewRatio + 1) / p._gen_alignment
          ≤ (h1 / (NewRatio + 1) + k * p._gen_alignment) / p._gen_alignment :=
            Nat.div_le_div_right hq
        _ = h1 / (NewRatio + 1) / p._gen_alignment + k :=
            Nat.add_mul_div_right _ _ hpos
    have hmul := Nat.mul_le_mul_right p._gen_alignment hs
    rw [Nat.add_mul] at hmul
    have : h2 - h1 = k * p._gen_alignment := by rw [hk, Nat.mul_comm]
    omega

/-- The young size and the rest of the heap both grow with the heap size, for heap
sizes that are multiples of the generation alignment. -/
theorem young_size_for_mono (p : GenCollectorPolicy) (g : GenerationInputs) (h1 h2 : Nat)
    (h : h1 ≤ h2) (hm1 : h1 % p._gen_alignment = 0) (hm2 : h2 % p._gen_alignment = 0) :
    p.young_size_for g h1 ≤ p.young_size_for g h2 ∧
      h1 - p.young_size_for g h1 ≤ h2 - p.young_size_for g h2 := by
  have hs := scale_by_NewRatio_aligned_mono p g.NewRatio h1 h2 h
  have hl := scale_by_NewRatio_aligned_step p g.NewRatio h1 h2 h hm1 hm2
  unfold GenCollectorPolicy.young_size_for GenCollectorPolicy.bound_minus_alignment
  dsimp only
  constructor <;> omega

/-- The young size and the rest of the heap are multiples of the generation
alignment, for a heap size that is one. -/
theorem young_size_for_mod (p : GenCollectorPolicy) (g : GenerationInputs) (h : Nat)
    (hm : h % p._gen_alignment = 0) :
    p.young_size_for g h % p._gen_alignment = 0 ∧
      (h - p.young_size_for g h) % p._gen_alignment = 0 := by
  have hy : p.young_size_for g h % p._gen_alignment = 0 := by
    unfold GenCollectorPolicy.young_size_for GenCollectorPolicy.bound_minus_alignment
      GenCollectorPolicy.young_gen_size_lower_bound
    refine mod_min_eq_zero _ _ _ (mod_max_eq_zero _ _ _ (mod_max_eq_zero _ _ _
      (align_size_up_mod _ _) (align_size_up_mod _ _)) (align_size_down_mod _ _)) ?_
    exact Nat.mod_eq_zero_of_dvd
      (Nat.dvd_sub' (Nat.dvd_of_mod_eq_zero hm) (Nat.dvd_refl _))
  exact ⟨hy, Nat.mod_eq_zero_of_dvd
    (Nat.dvd_sub' (Nat.dvd_of_mod_eq_zero hm) (Nat.dvd_of_mod_eq_zero hy))⟩

/-- The run of `initialize_all` on a two-generation policy, hook by hook. -/
theorem after_initialize_all_eq (cfg : AlignmentInputs) (g : GenerationInputs) (specs : Nat)
    (w : World) :
    TwoGenerationCollectorPolicy.after_initialize_all cfg g specs w =
      ((TwoGenerationCollectorPolicy.initialize_alignments cfg
        w.policy).toCollectorPolicy.initialize_flags w.flags).map
        (fun f =>
          { flags := f,
            policy :=
              ((TwoGenerationCollectorPolicy.initialize_alignments cfg
                w.policy).initialize_size_info g f).initialize_generations specs }) := by
  unfold TwoGenerationCollectorPolicy.after_initialize_all GenCollectorPolicy.initialize_all
    CollectorPolicy.initialize_all invoke TwoGenerationCollectorPolicy.vtable
  simp only [Option.map_some', Option.some_bind]
  cases (TwoGenerationCollectorPolicy.initialize_alignments cfg
    w.policy).toCollectorPolicy.initialize_flags w.flags <;> rfl

/-- The flags that pass `initialize_flags` are ordered and aligned. -/
theorem initialize_flags_ordered (p : CollectorPolicy) (f f1 : SizeFlags)
    (h : p.initialize_flags f = some f1) :
    f1.MinHeapSize ≤ f1.InitialHeapSize ∧ f1.InitialHeapSize ≤ f1.MaxHeapSize := by
  unfold CollectorPolicy.initialize_flags at h
  dsimp only at h
  split at h
  · cases h
  · simp only [Option.some.injEq] at h
    subst h
    dsimp only
    omega

/-- The sizes derived from ordered flags are consistent when the alignments are. -/
theorem initialize_size_info_consistent (p : TwoGenerationCollectorPolicy)
    (g : GenerationInputs) (f : SizeFlags) (specs : Nat)
    (hp : p.alignments_consistent)
    (hf : f.MinHeapSize ≤ f.InitialHeapSize ∧ f.InitialHeapSize ≤ f.MaxHeapSize) :
    ((p.initialize_size_info g f).initialize_generations specs).sizes_consistent := by
  obtain ⟨hchain, -, -, -⟩ := hp
  have hmin := align_size_up_mod f.MinHeapSize p._heap_alignment
  have hini := align_size_up_mod f.InitialHeapSize p._heap_alignment
  have hmax := align_size_up_mod f.MaxHeapSize p._heap_alignment
  have h1 := align_size_up_mono _ _ p._heap_alignment hf.1
  have h2 := align_size_up_mono _ _ p._heap_alignment hf.2
  have gmin := mod_eq_zero_of_chain _ _ _ hmin hchain
  have gini := mod_eq_zero_of_chain _ _ _ hini hchain
  have gmax := mod_eq_zero_of_chain _ _ _ hmax hchain
  have m1 := young_size_for_mono
    { p.toGenCollectorPolicy with
      toCollectorPolicy := p.toCollectorPolicy.initialize_size_info f } g _ _ h1 gmin gini
  have m2 := young_size_for_mono
    { p.toGenCollectorPolicy with
      toCollectorPolicy := p.toCollectorPolicy.initialize_size_info f } g _ _ h2 gini gmax
  have y1 := young_size_for_mod
    { p.toGenCollectorPolicy with
      toCollectorPolicy := p.toCollectorPolicy.initialize_size_info f } g _ gmin
  have y2 := young_size_for_mod
    { p.toGenCollectorPolicy with
      toCollectorPolicy := p.toCollectorPolicy.initialize_size_info f } g _ gini
  have y3 := young_size_for_mod
    { p.toGenCollectorPolicy with
      toCollectorPolicy := p.toCollectorPolicy.initialize_size_info f } g _ gmax
  exact ⟨⟨m1.1, m2.1⟩, ⟨m1.2, m2.2⟩, ⟨h1, h2⟩, ⟨y1.1, y2.1, y3.1⟩, ⟨y1.2, y2.2, y3.2⟩,
    ⟨hmin, hini, hmax⟩⟩

/-- C11: whenever `initialize_all()` of a two-generation policy returns, the minimum,
initial and maximum size of generation 0, of generation 1 and of the heap are each
ordered `min <= initial <= max`, the generation sizes are multiples of
`gen_alignment` and the heap sizes multiples of `heap_alignment`; and it returns
exactly when the aligned maximum heap size is not below the aligned minimum. -/
theorem C11_sizes_consistent_after_initialize_all (cfg : AlignmentInputs)
    (g : GenerationInputs) (specs : Nat) (w : World) :
    (∀ w1 : World,
        TwoGenerationCollectorPolicy.after_initialize_all cfg g specs w = some w1 →
        (w1.policy._min_gen0_size ≤ w1.policy._initial_gen0_size ∧
          w1.policy._initial_gen0_size ≤ w1.policy._max_gen0_size) ∧
        (w1.policy._min_gen1_size ≤ w1.policy._initial_gen1_size ∧
          w1.policy._initial_gen1_size ≤ w1.policy._max_gen1_size) ∧
        (w1.policy._min_heap_byte_size ≤ w1.policy._initial_heap_byte_size ∧
          w1.policy._initial_heap_byte_size ≤ w1.policy._max_heap_byte_size) ∧
        (w1.policy._min_gen0_size % w1.policy._gen_alignment = 0 ∧
          w1.policy._initial_gen0_size % w1.policy._gen_alignment = 0 ∧
          w1.policy._max_gen0_size % w1.policy._gen_alignment = 0) ∧
        (w1.policy._min_gen1_size % w1.policy._gen_alignment = 0 ∧
          w1.policy._initial_gen1_size % w1.policy._gen_alignment = 0 ∧
          w1.policy._max_gen1_size % w1.policy._gen_alignment = 0) ∧
        (w1.policy._min_heap_byte_size % w1.policy._heap_alignment = 0 ∧
          w1.policy._initial_heap_byte_size % w1.policy._heap_alignment = 0 ∧
          w1.policy._max_heap_byte_size % w1.policy._heap_alignment = 0)) ∧
      (TwoGenerationCollectorPolicy.after_initialize_all cfg g specs w).isSome =
        decide (align_size_up w.flags.MinHeapSize
            (TwoGenerationCollectorPolicy.initialize_alignments cfg w.policy)._heap_alignment ≤
          align_size_up w.flags.MaxHeapSize
            (TwoGenerationCollectorPolicy.initialize_alignments cfg w.policy)._heap_alignment) := by
  rw [after_initialize_all_eq]
  constructor
  · intro w1 h
    cases hf : (TwoGenerationCollectorPolicy.initialize_alignments cfg
        w.policy).toCollectorPolicy.initialize_flags w.flags with
    | none => rw [hf] at h; cases h
    | some f =>
      rw [hf] at h
      simp only [Option.map_some', Option.some.injEq] at h
      subst h
      exact initialize_size_info_consistent _ g f specs
        (initialize_alignments_consistent cfg w.policy) (initialize_flags_ordered _ _ _ hf)
  · unfold CollectorPolicy.initialize_flags
    dsimp only
    split
    · rename_i hlt
      simp only [Option.map_none', Option.isSome_none]
      exact (decide_eq_false (by omega)).symm
    · rename_i hlt
      simp only [Option.map_some', Option.isSome_some]
      exact (decide_eq_true (by omega)).symm

/-- C11 at a concrete run: a heap of 64, 256 and 512 MiB with a ratio of 2 under
alignments of 1, 2 and 4 MiB is initialized to a young generation of 20, 84 and
170 MiB and an old generation of 44, 172 and 342 MiB, which are ordered and aligned. -/
theorem C11_sizes_consistent_after_initialize_all_witness :
    TwoGenerationCollectorPolicy.after_initialize_all example_inputs
        example_generation_inputs 1 example_world = some example_world_initialized ∧
      example_world_initialized.policy.sizes_consistent :=
  ⟨by decide,
    (C11_sizes_consistent_after_initialize_all example_inputs example_generation_inputs 1
      example_world).1 example_world_initialized (by decide)⟩

/-! ### Alignments under the later operations -/

end Hotspot
